import Mathlib

/-!
# RecordLib core: shallow embedding and verification

This file embeds the core record model, rule functions, and summarization
logic of the RecordLib criminal-record analysis engine
(`RecordLib/crecord/*.py`, `RecordLib/analysis/*.py`) into Lean 4, and
proves properties of the embedded definitions.

Modelling conventions:
* Python `date` values are modelled by `PyDate` (year/month/day).
  `dateutil.relativedelta(a, b).years` is modelled by `PyDate.yearsBetween`,
  which agrees with relativedelta when `a` is not before `b` (the only
  situations the analysed code exercises).
* "today" (`date.today()`) is passed explicitly to every function that
  consults the clock in Python.
* Python values that may be `float("Inf")`, `float("-Inf")` or an `int`
  are modelled by `XInt`.
* Python functions that can raise an uncaught exception are modelled in
  `Except String`, with the error string naming the Python exception.
  Functions in which no reachable operation raises are modelled as total.
* Python `dict`s keyed by strings are modelled as association lists with
  Python's insert-or-overwrite update semantics.
-/

namespace RecordLib

/-- A calendar date, as Python `datetime.date`. -/
structure PyDate where
  year : Int
  month : Nat
  day : Nat
deriving Repr, DecidableEq

namespace PyDate

/-- `(a.month, a.day) < (b.month, b.day)` — Python tuple comparison on
month/day pairs, used by `Person.age`. -/
def mdLT (a b : PyDate) : Bool :=
  a.month < b.month || (a.month == b.month && a.day < b.day)

/-- Model of `relativedelta(a, b).years`: the number of whole calendar
years from `b` to `a` (valid whenever `a` is not before `b`). -/
def yearsBetween (a b : PyDate) : Int :=
  a.year - b.year - (if mdLT a b then 1 else 0)

/-- Lexicographic order on dates: Python `date` comparison. -/
def le (a b : PyDate) : Bool :=
  a.year < b.year ||
    (a.year == b.year &&
      (a.month < b.month ||
        (a.month == b.month && a.day ≤ b.day)))

/-- Python `max` of two dates. -/
def maxD (a b : PyDate) : PyDate := if le a b then b else a

/-- `datetime.date.min`, i.e. year 1, January 1st: `Case.last_action`
returns this when a case has neither an arrest nor a disposition date. -/
def minDate : PyDate := ⟨1, 1, 1⟩

/-- Days since the civil epoch 1970-01-01 (standard civil-calendar
day-numbering); used to model `date + timedelta`. -/
def toDays (d : PyDate) : Int :=
  let y : Int := if d.month ≤ 2 then d.year - 1 else d.year
  let era : Int := (if 0 ≤ y then y else y - 399) / 400
  let yoe : Int := y - era * 400
  let m : Int := d.month
  let doy : Int := (153 * (m + (if m > 2 then -3 else 9)) + 2) / 5 + d.day - 1
  let doe : Int := yoe * 365 + yoe / 4 - yoe / 100 + doy
  era * 146097 + doe - 719468

/-- Inverse of `toDays` (standard civil-from-days algorithm). -/
def ofDays (z0 : Int) : PyDate :=
  let z : Int := z0 + 719468
  let era : Int := (if 0 ≤ z then z else z - 146096) / 146097
  let doe : Int := z - era * 146097
  let yoe : Int := (doe - doe / 1460 + doe / 36524 - doe / 146096) / 365
  let y : Int := yoe + era * 400
  let doy : Int := doe - (365 * yoe + yoe / 4 - yoe / 100)
  let mp : Int := (5 * doy + 2) / 153
  let d : Int := doy - (153 * mp + 2) / 5 + 1
  let m : Int := mp + (if mp < 10 then 3 else -9)
  ⟨if m ≤ 2 then y + 1 else y, m.toNat, d.toNat⟩

/-- Python `date + timedelta(days = n)`. -/
def addDays (d : PyDate) (n : Int) : PyDate := ofDays (toDays d + n)

end PyDate

/-- A Python number that is either an `int`, `float("Inf")` or
`float("-Inf")` — the only float values produced by the record model's
temporal queries. -/
inductive XInt where
  | negInf
  | fin (n : Int)
  | inf
deriving Repr, DecidableEq

namespace XInt

/-- `x > n` for an integer threshold `n`. -/
def gtInt (x : XInt) (n : Int) : Bool :=
  match x with
  | .negInf => false
  | .fin m => n < m
  | .inf => true

/-- `x >= n` for an integer threshold `n`. -/
def geInt (x : XInt) (n : Int) : Bool :=
  match x with
  | .negInf => false
  | .fin m => n ≤ m
  | .inf => true

end XInt

/-!
String primitives.  Lean's own `String.trim`, `String.isPrefixOf`,
`String.drop` and friends recurse on byte positions by well-founded
recursion and do not reduce inside the kernel, so the Python string
operations are modelled directly on the character list of a string,
where everything is structural and computes in proofs.
-/

/-- `l` is a prefix of `r` (character lists). -/
def charsPrefix : List Char → List Char → Bool
  | [], _ => true
  | _ :: _, [] => false
  | a :: as, b :: bs => decide (a = b) && charsPrefix as bs

/-- `n` occurs inside `h` (character lists). -/
def charsInfix (n : List Char) : List Char → Bool
  | [] => charsPrefix n []
  | c :: t => charsPrefix n (c :: t) || charsInfix n t

/-- Python `s.strip()`: drop leading and trailing whitespace. -/
def pyStrip (s : String) : String :=
  String.mk
    (((s.data.dropWhile Char.isWhitespace).reverse.dropWhile
      Char.isWhitespace).reverse)

/-- Python `s.startswith(pre)` / `re.match` against a literal. -/
def strStartsWith (s pre : String) : Bool :=
  charsPrefix pre.data s.data

/-- Python `s[n:]`. -/
def strDrop (s : String) (n : Nat) : String := String.mk (s.data.drop n)

/-- Python `s[:-n]` (drop `n` trailing characters). -/
def strDropRight (s : String) (n : Nat) : String :=
  String.mk (s.data.take (s.data.length - n))

/-- Python `needle in haystack` on strings (substring containment). -/
def strContains (haystack needle : String) : Bool :=
  charsInfix needle.data haystack.data

/-- Case-insensitive `re.search` for a literal (lower-case) term:
the term occurs in the lower-cased text. -/
def searchCI (term text : String) : Bool :=
  charsInfix term.data (text.data.map Char.toLower)

/-!
## `RecordLib/crecord/common.py` — SentenceLength and Sentence
-/

/-- `SentenceLength`: min/max durations, as whole days.
`SentenceLength.calculate_days` may fail to parse, yielding `None`. -/
structure SentenceLength where
  min_time : Option Int
  max_time : Option Int
deriving Repr, DecidableEq

/-- `Sentence`: one sentence attached to a charge.  All fields are
dynamically optional in Python (parsers may leave them `None`). -/
structure Sentence where
  sentence_date : Option PyDate
  sentence_type : Option String
  sentence_period : Option String
  sentence_length : Option SentenceLength
deriving Repr, DecidableEq

/-!
## `RecordLib/crecord/charge.py` — Charge
-/

/-- `Charge`: one charge of a case.  `grade` is annotated `str` in the
dataclass but is dynamically `None`-able (e.g. `Charge.from_dict` with a
null grade), which matters to `is_summary`; we model the dynamic value. -/
structure Charge where
  offense : String
  grade : Option String
  statute : String
  sequence : Option String := none
  disposition : Option String := none
  disposition_date : Option PyDate := none
  sentences : Option (List Sentence) := none
  otn : Option String := none
deriving Repr, DecidableEq

namespace Charge

/-- The fixed grade order of `Charge.grade_GTE`. -/
def gradesList : List String :=
  ["", "S", "M", "IC", "M3", "M2", "M1", "F", "F3", "F2", "F1"]

/-- `grades.index(g)` wrapped in `try/except` — an unrecognized grade
(or a `None` grade, for which `list.index` also raises `ValueError`)
falls back to index 0.  -/
def gradeIndex (g : Option String) : Nat :=
  match g with
  | none => 0
  | some s =>
    let i := gradesList.indexOf s
    if i = gradesList.length then 0 else i

/-- `Charge.grade_GTE`: grade `a` is the same as or more serious than
grade `b`, per the fixed total order; unrecognized grades rank lowest. -/
def grade_GTE (a b : Option String) : Bool :=
  gradeIndex b ≤ gradeIndex a

/-- `Charge.is_conviction`: `None` disposition is not a conviction;
otherwise the stripped disposition must match `^Guilty`. -/
def is_conviction (c : Charge) : Bool :=
  match c.disposition with
  | none => false
  | some d => strStartsWith (pyStrip d) "Guilty"

/-- `pick_more_complete` inside `Charge.combine`, for string-valued
fields: `thing1 in [None, ""]` picks `thing2`. -/
def pickStr (a b : Option String) : Option String :=
  match a with
  | none => b
  | some s => if s = "" then b else a

/-- `pick_more_complete` for fields that are never equal to `""`
(dates, sentence lists): only `None` yields to the other side. -/
def pickOpt {α : Type} (a b : Option α) : Option α :=
  match a with
  | none => b
  | some _ => a

/-- `Charge.combine` on two (non-`None`) charges: field-by-field,
keep the first charge's value unless it is `None` or `""`. -/
def combine (c1 c2 : Charge) : Charge :=
  { offense := (pickStr (some c1.offense) (some c2.offense)).getD c1.offense
    grade := pickStr c1.grade c2.grade
    statute := (pickStr (some c1.statute) (some c2.statute)).getD c1.statute
    sequence := pickStr c1.sequence c2.sequence
    disposition := pickStr c1.disposition c2.disposition
    disposition_date := pickOpt c1.disposition_date c2.disposition_date
    sentences := pickOpt c1.sentences c2.sentences
    otn := pickStr c1.otn c2.otn }

/-- The disposition pattern of `Charge.combine_with`:
`re.search(r"nolle|guilt|dismiss|withdraw", ..., re.I)`. -/
def finalDisposition (text : String) : Bool :=
  searchCI "nolle" text || searchCI "guilt" text ||
    searchCI "dismiss" text || searchCI "withdraw" text

/-- One step of `Charge.combine_with` for a non-disposition optional
string attribute: fill `None` from the other charge, or replace a
blank string by a non-blank one. -/
def combineStrField (mine other : Option String) : Option String :=
  match mine, other with
  | none, some o => some o
  | none, none => none
  | some m, other =>
    if pyStrip m = "" then
      match other with
      | some o => if pyStrip o ≠ "" then some o else some m
      | none => some m
    else some m

/-- One step of `Charge.combine_with` for a non-string attribute:
only the `None`-filling branch can fire. -/
def combineOptField {α : Type} (mine other : Option α) : Option α :=
  match mine, other with
  | none, some o => some o
  | _, _ => mine

/-- `Charge.combine_with`: merge `other` into `c`, attribute by
attribute in `__dict__` order.  The `disposition` attribute has a third
branch that calls `re.search` on `other.disposition`; when that value is
`None` (and neither of the first two branches fired) Python raises
`TypeError`, which we surface as an error. -/
def combine_with (c other : Charge) : Except String Charge := do
  let offense :=
    (combineStrField (some c.offense) (some other.offense)).getD c.offense
  let grade := combineStrField c.grade other.grade
  let statute :=
    (combineStrField (some c.statute) (some other.statute)).getD c.statute
  let sequence := combineStrField c.sequence other.sequence
  -- the disposition attribute:
  let (disposition, dispDate) ←
    match c.disposition, other.disposition with
    | none, some o => pure (some o, c.disposition_date)
    | none, none =>
      .error "TypeError: expected string or bytes-like object"
    | some m, other_d =>
      if pyStrip m = "" then
        match other_d with
        | some o =>
          if pyStrip o ≠ "" then pure (some o, c.disposition_date)
          else
            -- blank incoming string: falls through to the final-outcome
            -- branch, whose search on a blank string never matches.
            if finalDisposition o then
              pure (some o, other.disposition_date)
            else pure (some m, c.disposition_date)
        | none => .error "TypeError: expected string or bytes-like object"
      else
        match other_d with
        | some o =>
          if finalDisposition o then pure (some o, other.disposition_date)
          else pure (some m, c.disposition_date)
        | none => .error "TypeError: expected string or bytes-like object"
  let disposition_date := combineOptField dispDate other.disposition_date
  let sentences := combineOptField c.sentences other.sentences
  let otn := combineStrField c.otn other.otn
  pure { offense := offense, grade := grade, statute := statute,
         sequence := sequence, disposition := disposition,
         disposition_date := disposition_date, sentences := sentences,
         otn := otn }

end Charge

/-!
## `RecordLib/crecord/person.py` — Person
-/

/-- `Person`: the subject of a record (address omitted — unused by the
analysis core). -/
structure Person where
  first_name : String
  last_name : String
  date_of_birth : Option PyDate
  aliases : List String := []
  date_of_death : Option PyDate := none
  ssn : Option String := none
deriving Repr, DecidableEq

namespace Person

/-- `Person.age`: years as of `today`, birthday-aware; 0 when the date
of birth is missing. -/
def age (p : Person) (today : PyDate) : Int :=
  match p.date_of_birth with
  | none => 0
  | some dob => today.year - dob.year - (if PyDate.mdLT today dob then 1 else 0)

/-- `Person.years_dead`: years since death, or `-Inf` when alive. -/
def years_dead (p : Person) (today : PyDate) : XInt :=
  match p.date_of_death with
  | none => .negInf
  | some dod => .fin (PyDate.yearsBetween today dod)

end Person

/-!
## `RecordLib/crecord/case.py` — Case
-/

/-- `Case`: one docketed case of a record.

`docket_url` is read by `summarize` (`analysis.py`) on every case of the
analysed record but is not assigned in the `Case` sources provided;
modelled from the spec and that caller as an optional URL carried by the
case. -/
structure Case where
  docket_number : String
  otn : Option String := none
  dc : Option String := none
  charges : List Charge := []
  total_fines : Option Int := none
  fines_paid : Option Int := none
  status : Option String := none
  county : Option String := none
  arrest_date : Option PyDate := none
  complaint_date : Option PyDate := none
  disposition_date : Option PyDate := none
  judge : Option String := none
  judge_address : Option String := none
  affiant : Option String := none
  arresting_agency : Option String := none
  arresting_agency_address : Option String := none
  related_cases : List String := []
  docket_url : Option String := none
deriving Repr, DecidableEq

namespace Case

/-- `Case.last_action`: the later of the arrest and disposition dates;
the missing one if only one is present; `date.min` if neither is. -/
def last_action (c : Case) : PyDate :=
  match c.arrest_date, c.disposition_date with
  | some a, some d => PyDate.maxD a d
  | none, some d => d
  | some a, none => a
  | none, none => PyDate.minDate

/-- The comprehension inside `Case.was_confined`:
`["onfine" in s.sentence_type for s in ...]` for one sentence list.
Python materializes the whole list before `any`, so a `None` sentence
type raises even after a confinement keyword was already seen. -/
def confinedFlags : List Sentence → Except String (List Bool)
  | [] => .ok []
  | s :: ss =>
    match s.sentence_type with
    | none =>
      .error "TypeError: argument of type NoneType is not iterable"
    | some t => (confinedFlags ss).map (fun bs => strContains t "onfine" :: bs)

/-- The full comprehension of `Case.was_confined`, over every charge;
a `None` sentence list cannot be iterated. -/
def confinedFlagsOfCharges : List Charge → Except String (List Bool)
  | [] => .ok []
  | ch :: chs =>
    match ch.sentences with
    | none => .error "TypeError: NoneType object is not iterable"
    | some ss => do
      let bs ← confinedFlags ss
      let rest ← confinedFlagsOfCharges chs
      pure (bs ++ rest)

/-- `Case.was_confined`: some sentence's type contains `"onfine"`. -/
def was_confined (c : Case) : Except String Bool :=
  (confinedFlagsOfCharges c.charges).map (fun bs => bs.any id)

/-- `s.sentence_date + s.sentence_length.max_time` for every sentence
of the case: missing lengths raise `AttributeError`, missing dates or
max times raise `TypeError`. -/
def sentenceEnds : List Sentence → Except String (List PyDate)
  | [] => .ok []
  | s :: ss =>
    match s.sentence_length with
    | none =>
      .error "AttributeError: NoneType object has no attribute max_time"
    | some len =>
      match s.sentence_date, len.max_time with
      | none, _ => .error "TypeError: unsupported operand types for +"
      | _, none => .error "TypeError: unsupported operand types for +"
      | some d, some days =>
        (sentenceEnds ss).map (fun es => PyDate.addDays d days :: es)

/-- `sentenceEnds` over every charge of a case. -/
def sentenceEndsOfCharges : List Charge → Except String (List PyDate)
  | [] => .ok []
  | ch :: chs =>
    match ch.sentences with
    | none => .error "TypeError: NoneType object is not iterable"
    | some ss => do
      let es ← sentenceEnds ss
      let rest ← sentenceEndsOfCharges chs
      pure (es ++ rest)

/-- `Case.end_of_confinement`: `None` when never confined, else the
maximum of `sentence_date + sentence_length.max_time` over all the
case's sentences (`max` of an empty list raises `ValueError`). -/
def end_of_confinement (c : Case) : Except String (Option PyDate) := do
  let confined ← was_confined c
  if !confined then
    pure none
  else
    let ends ← sentenceEndsOfCharges c.charges
    match ends with
    | [] => .error "ValueError: max() arg is an empty sequence"
    | e :: es => pure (some (es.foldl PyDate.maxD e))

/-- `Case.partialcopy`: the same case with an empty charge list. -/
def partialcopy (c : Case) : Case := { c with charges := [] }

/-- `Case.fines_remaining`: `total_fines - fines_paid`; when either is
`None`, 0 if `total_fines == 0` else `None` ("unknown"). -/
def fines_remaining (c : Case) : Option Int :=
  match c.total_fines, c.fines_paid with
  | some t, some p => some (t - p)
  | some t, none => if t = 0 then some 0 else none
  | none, _ => none

end Case

/-!
## `RecordLib/crecord/crecord.py` — CRecord and temporal queries
-/

/-- `CRecord`: a person and their cases (the constructor replaces a
`None` case list by `[]`, so `cases` is always a list). -/
structure CRecord where
  person : Person
  cases : List Case := []
deriving Repr, DecidableEq

namespace CRecord

/-- The last element of `sorted(cases, key=last_action)`: the case with
the latest `last_action`, ties resolved toward the latest-listed case
(stable sort). -/
def latestCase : List Case → Option Case
  | [] => none
  | c :: cs =>
    some (cs.foldl
      (fun acc d =>
        if PyDate.le acc.last_action d.last_action then d else acc) c)

/-- `years_since_last_arrested_or_prosecuted`: `Inf` with no cases;
0 when some case's status contains `"Active"`; else whole years from
the latest case's last action to today. -/
def years_since_last_arrested_or_prosecuted (today : PyDate)
    (rec : CRecord) : XInt :=
  if rec.cases = [] then .inf
  else if rec.cases.any (fun c =>
      match c.status with
      | some s => strContains s "Active"
      | none => false) then
    .fin 0
  else
    match latestCase rec.cases with
    | none => .fin 0
    | some last => .fin (PyDate.yearsBetween today last.last_action)

/-- The comprehension
`[c.end_of_confinement() for c in crecord.cases if c.was_confined()]`. -/
def confinementEnds : List Case → Except String (List PyDate)
  | [] => .ok []
  | c :: cs => do
    let confined ← c.was_confined
    if confined then
      match ← c.end_of_confinement with
      | some e => do
        let rest ← confinementEnds cs
        pure (e :: rest)
      | none => confinementEnds cs
    else confinementEnds cs

/-- `years_since_final_release`: `Inf` when no case involved
confinement (in particular when there are no cases); else whole years
from the latest end of confinement, clamped at 0.  Exceptions from
`was_confined` / `end_of_confinement` propagate (the `try` in the
source only wraps the final `max`/`relativedelta`). -/
def years_since_final_release (today : PyDate) (rec : CRecord) :
    Except String XInt := do
  let ends ← confinementEnds rec.cases
  match ends with
  | [] => pure .inf
  | e :: es =>
    pure (.fin (max (PyDate.yearsBetween today (es.foldl PyDate.maxD e)) 0))

end CRecord

/-!
## Petitions and Decisions
-/

/-- Whether a petition asks for expungement or sealing. -/
inductive PetitionKind where
  | expungement
  | sealing
deriving Repr, DecidableEq

/-- `Expungement.ExpungementTypes`, plus the unset initial state. -/
inductive ExpungementType where
  | unset
  | full
  | partialExpungement
deriving Repr, DecidableEq

/-- Modelled from the spec: the `RecordLib.petitions` module is not in
the sources.  Per the spec, a Petition "represents a proposed filing
naming a client, a set of cases, and a classification (full vs.
partial)"; `Expungement` and `Sealing` are its two kinds, and an
`Expungement` carries an `expungement_type` and reason text. -/
structure Petition where
  kind : PetitionKind
  client : Person
  cases : List Case
  expungement_type : ExpungementType := .unset
  expungement_reasons : String := ""
deriving Repr, DecidableEq

/-- The dynamic type of a `Decision.value` in Python: the default `""`,
a boolean, `None`, a list of petitions (PetitionDecision), a list of
cases (FilterDecision), the eligible/ineligible partition
(RecordEligibilityDecision), or a free string. -/
inductive DVal where
  | str (s : String)
  | bool (b : Bool)
  | none
  | petitions (ps : List Petition)
  | cases (cs : List Case)
  | elig (eligible ineligible : List Case)
deriving Repr, DecidableEq

/-- `bool(value)` for the values a `Decision` can carry. -/
def DVal.truthy : DVal → Bool
  | .str s => s ≠ ""
  | .bool b => b
  | .none => false
  | .petitions ps => ps ≠ []
  | .cases cs => cs ≠ []
  | .elig _ _ => true

mutual
/-- A `Decision` (`analysis/decision.py`): a name, a dynamic value and
reasoning.  `dtype` models the `type` attribute set only by the
subclasses (`"Petition"`, `"Eligibility"`, `"Filter"`, `"Wait"`);
reading `type` on a plain `Decision` raises `AttributeError`.
`years_to_wait` models the extra attribute of `WaitDecision` (a class
referenced by `analysis.py` but absent from the sources). -/
inductive Decision where
  | mk (name : String) (dtype : Option String) (value : DVal)
      (reasoning : Reasoning) (years_to_wait : Option Int)

/-- A `Decision.reasoning` is dynamically a string, a list of child
decisions, or (for the automated-sealing rule) a dict from docket
numbers to lists of decisions. -/
inductive Reasoning where
  | text (s : String)
  | decs (ds : List Decision)
  | byDocket (entries : List (String × List Decision))
end

namespace Decision

/-- The decision's name. -/
def name : Decision → String
  | .mk n _ _ _ _ => n

/-- The decision's `type` attribute (subclass tag), if any. -/
def dtype : Decision → Option String
  | .mk _ t _ _ _ => t

/-- The decision's value. -/
def value : Decision → DVal
  | .mk _ _ v _ _ => v

/-- The decision's reasoning. -/
def reasoning : Decision → Reasoning
  | .mk _ _ _ r _ => r

/-- The `years_to_wait` attribute of a `WaitDecision`. -/
def years_to_wait : Decision → Option Int
  | .mk _ _ _ _ y => y

/-- `Decision.__bool__`: the boolean coercion of the value. -/
def truthy (d : Decision) : Bool := d.value.truthy

end Decision

/-- `all(ds)` over a list of decisions. -/
def allTruthy (ds : List Decision) : Bool := ds.all Decision.truthy

/-- `any(ds)` over a list of decisions. -/
def anyTruthy (ds : List Decision) : Bool := ds.any Decision.truthy

/-- `str(x)` for the int-or-infinity values shown in reasoning text. -/
def XInt.toStr : XInt → String
  | .negInf => "-inf"
  | .fin n => toString n
  | .inf => "inf"

/-- `str(charge.sequence)` as interpolated into decision names
(`None` prints as `"None"`). -/
def seqStr (s : Option String) : String :=
  match s with
  | none => "None"
  | some s => s

/-!
## `RecordLib/analysis/ruledefs/simple_expungement_rules.py`
-/

namespace Ser

/-- `is_over_age`: strictly greater than the limit. -/
def is_over_age (today : PyDate) (p : Person) (age_limit : Int) : Decision :=
  .mk ("Is " ++ p.first_name ++ " over " ++ toString age_limit ++ "?")
    Option.none
    (.bool (decide (age_limit < p.age today)))
    (.text (p.first_name ++ " is " ++ toString (p.age today)))
    Option.none

/-- `years_since_last_contact`: the value compares against the literal
10, not `year_min`, and non-strictly. -/
def years_since_last_contact (today : PyDate) (crec : CRecord)
    (year_min : Int) : Decision :=
  .mk ("Has " ++ crec.person.first_name ++
      " been free of arrest or prosecution for " ++ toString year_min ++
      " years?")
    Option.none
    (.bool ((CRecord.years_since_last_arrested_or_prosecuted today crec).geInt
      10))
    (.text ("It has been " ++
      (CRecord.years_since_last_arrested_or_prosecuted today crec).toStr ++
      " years."))
    Option.none

/-- `years_since_final_release` (the rule): strictly greater than
`year_min`; raises whatever the record query raises. -/
def years_since_final_release (today : PyDate) (crec : CRecord)
    (year_min : Int) : Except String Decision := do
  let y ← CRecord.years_since_final_release today crec
  pure (.mk ("Has it been at least " ++ toString year_min ++
      " years since " ++ crec.person.first_name ++
      "\x27s final release from custody?")
    Option.none
    (.bool (y.gtInt year_min))
    (.text ("It has been " ++ y.toStr ++ "."))
    Option.none)

/-- `arrest_free_for_n_years`: strictly greater than `year_min`
(default 5). -/
def arrest_free_for_n_years (today : PyDate) (crec : CRecord)
    (year_min : Int) : Decision :=
  .mk ("Has " ++ crec.person.first_name ++
      " been arrest free and prosecution free for five years?")
    Option.none
    (.bool ((CRecord.years_since_last_arrested_or_prosecuted today crec).gtInt
      year_min))
    (.text ("It appears to have been " ++
      (CRecord.years_since_last_arrested_or_prosecuted today crec).toStr ++
      " since the last arrest or prosecection."))
    Option.none

/-- `is_summary`: `charge.grade.strip() == "S"`; a `None` grade raises
`AttributeError` in Python. -/
def is_summary (ch : Charge) : Except String Decision :=
  match ch.grade with
  | none =>
    .error "AttributeError: NoneType object has no attribute strip"
  | some g =>
    .ok (.mk ("Is this charge for " ++ ch.offense ++ " a summary?")
      Option.none
      (.bool (pyStrip g == "S"))
      (.text ("The charge\x27s grade is " ++ pyStrip g))
      Option.none)

/-- `is_unresolved`: true when the disposition is `""` or `None`
(exact comparison, not stripped). -/
def is_unresolved (ch : Charge) : Decision :=
  let nm := "Is charge " ++ seqStr ch.sequence ++ ", for " ++ ch.offense ++
    ", still unresolved?"
  if ch.disposition = some "" ∨ ch.disposition = Option.none then
    .mk nm Option.none (.bool true)
      (.text "The charge has no disposition, so it appears to be unresolved.")
      Option.none
  else
    .mk nm Option.none (.bool false)
      (.text ("The charge was resolved with the disposition, \x27" ++
        (ch.disposition.getD "") ++ "\x27."))
      Option.none

/-- `is_conviction` (the rule): value `None` when the disposition is
missing or blank after stripping, else the boolean
`Charge.is_conviction`. -/
def is_conviction (ch : Charge) : Decision :=
  let nm := "Is charge " ++ seqStr ch.sequence ++ ", for " ++ ch.offense ++
    ", a conviction?"
  match ch.disposition with
  | none =>
    .mk nm Option.none .none
      (.text ("The charge is missing a disposition, so this case may " ++
        "not be closed (it may have simply been transferred)."))
      Option.none
  | some d =>
    if pyStrip d = "" then
      .mk nm Option.none .none
        (.text ("The charge is missing a disposition, so this case may " ++
          "not be closed (it may have simply been transferred)."))
        Option.none
    else
      .mk nm Option.none (.bool ch.is_conviction)
        (.text (if ch.is_conviction then
            "The charge\x27s disposition " ++ d ++ " indicates a conviction"
          else
            "The charge\x27s disposition " ++ d ++
              " indicates its not a conviction."))
        Option.none

/-- `is_conviction_or_unresolved`: `any` of the two sub-decisions. -/
def is_conviction_or_unresolved (ch : Charge) : Decision :=
  let rs := [is_unresolved ch, is_conviction ch]
  .mk ("Is charge " ++ seqStr ch.sequence ++ ", for " ++ ch.offense ++
      ", either a conviction or still unresolved?")
    Option.none
    (.bool (anyTruthy rs))
    (.decs rs)
    Option.none

/-- `is_summary_conviction`: `all` of `is_summary` and `is_conviction`;
raises whenever `is_summary` raises. -/
def is_summary_conviction (ch : Charge) : Except String Decision := do
  let s ← is_summary ch
  let rs := [s, is_conviction ch]
  pure (.mk ("Is the charge " ++ seqStr ch.sequence ++ " for " ++
      ch.offense ++ " a summary conviction?")
    Option.none
    (.bool (allTruthy rs))
    (.decs rs)
    Option.none)

end Ser

/-- `x < n` for an integer threshold `n`. -/
def XInt.ltInt (x : XInt) (n : Int) : Bool :=
  match x with
  | .negInf => true
  | .fin m => m < n
  | .inf => false

/-- Python `x is None` on a decision value. -/
def DVal.isNoneVal : DVal → Bool
  | .none => true
  | _ => false

/-- Assignment to `decision.value`. -/
def Decision.setValue : Decision → DVal → Decision
  | .mk n t _ r y, v => .mk n t v r y

/-- Python `all(reasoning)`: over a list of decisions it is `allTruthy`;
over a string it is always true (every character is a truthy one-char
string); over a dict it ranges over the keys. -/
def Reasoning.allPy : Reasoning → Bool
  | .text _ => true
  | .decs ds => allTruthy ds
  | .byDocket entries => entries.all (fun e => e.1 ≠ "")

/-- `str(disposition)` as interpolated into reasoning text. -/
def dispStr (d : Option String) : String :=
  match d with
  | none => "None"
  | some s => s

/-- Python-dict insertion: overwrite an existing key in place, else
append at the end. -/
def dictInsert {κ α : Type} [DecidableEq κ] (k : κ) (v : α) :
    List (κ × α) → List (κ × α)
  | [] => [(k, v)]
  | (k0, v0) :: rest =>
    if k0 = k then (k0, v) :: rest else (k0, v0) :: dictInsert k v rest

/-- Python-dict lookup (first matching key). -/
def dictGet {κ α : Type} [DecidableEq κ] (k : κ) : List (κ × α) → Option α
  | [] => none
  | (k0, v0) :: rest => if k0 = k then some v0 else dictGet k rest

/-!
## `RecordLib/crecord/crecord.py` — `years_between_convictions`
-/

namespace CRecord

/-- Stable insertion into a list sorted ascending by `last_action`. -/
def insertByLA (c : Case) : List Case → List Case
  | [] => [c]
  | d :: ds =>
    if PyDate.le c.last_action d.last_action then c :: d :: ds
    else d :: insertByLA c ds

/-- `sorted(cases, key=Case.order_cases_by_last_action)`: stable
ascending sort by `last_action`. -/
def sortByLA : List Case → List Case
  | [] => []
  | c :: cs => insertByLA c (sortByLA cs)

/-- `years_between_convictions`: years from the conviction `charge` to
the next conviction (or to today).  The source's first `for` loop
rebinds its own `case` parameter, so the `start_date` fallback and the
"subsequent" filter actually use the **last** case of the record (or
the unmodified argument when the record has no cases); we reproduce
that.  A missing start date makes the date comparison raise. -/
def years_between_convictions (today : PyDate) (rec : CRecord)
    (case0 : Case) (charge : Charge) : Except String Int :=
  let convictions_only :=
    rec.cases.filter (fun c => c.charges.any Charge.is_conviction)
  let convictions_sorted := sortByLA convictions_only
  let caseVar := (rec.cases.getLast?).getD case0
  match charge.disposition_date <|> caseVar.disposition_date with
  | none =>
    .error "TypeError: not supported between instances of date and NoneType"
  | some start =>
    let subsequent :=
      if ¬ PyDate.le caseVar.last_action start then convictions_sorted
      else []
    match subsequent with
    | [] => .ok (PyDate.yearsBetween today start)
    | c :: _ => .ok (PyDate.yearsBetween c.last_action start)

end CRecord

/-!
## `RecordLib/analysis/ruledefs/simple_sealing_rules.py` (absent from
the sources) — modelled from the spec
-/

namespace Ssr

/-- Modelled from the spec: `simple_sealing_rules.restitution_paid` is
not in the sources.  Per the spec, fines are satisfied when the fines
remaining on the case are ≤ 0, with unknown fines a non-blocking pass.
The name prefix "Fines and costs are all paid on the case " is fixed by
the pattern `summarize` matches against. -/
def restitution_paid (c : Case) : Decision :=
  .mk ("Fines and costs are all paid on the case " ++ c.docket_number)
    Option.none
    (.bool (match c.fines_remaining with
      | some r => decide (r ≤ 0)
      | none => true))
    (.text "Modelled: fines remaining on the case.")
    Option.none

/-- Modelled from the spec: `is_misdemeanor_or_ungraded` is not in the
sources.  Per the spec it is a grade-ceiling check using the grade
total order, with a null grade least severe. -/
def is_misdemeanor_or_ungraded (ch : Charge) : Decision :=
  .mk ("Is the charge for " ++ ch.offense ++ " a misdemeanor or ungraded?")
    Option.none
    (.bool (Charge.grade_GTE (some "M1") ch.grade))
    (.text "Modelled: the grade is M1 or less serious, or missing.")
    Option.none

/-- Modelled from the spec: the statutory exclusion checks
(`no_danger_to_person_offense`, `no_offense_against_family`,
`no_firearms_offense`, `no_sexual_offense`,
`no_corruption_of_minors_offense`) are not in the sources, and the spec
does not give their statute patterns.  Each returns a Decision for the
named category; the claims settled in this file never depend on its
value, which we model as the "no disqualifying offense found" default.
-/
def noOffenseCheck (category : String) (ch : Charge)
    (penalty_limit conviction_limit : Int) (within_years : XInt) :
    Decision :=
  .mk ("Is the charge for " ++ ch.offense ++ " free of " ++ category ++
      " offenses (penalty limit " ++ toString penalty_limit ++
      ", conviction limit " ++ toString conviction_limit ++
      ", within " ++ within_years.toStr ++ " years)?")
    Option.none
    (.bool true)
    (.text "Modelled: statute-pattern check absent from the sources.")
    Option.none

/-- Modelled from the spec (see `noOffenseCheck`). -/
def no_danger_to_person_offense (ch : Charge)
    (penalty_limit conviction_limit : Int) (within_years : XInt) :
    Decision :=
  noOffenseCheck "danger-to-person" ch penalty_limit conviction_limit
    within_years

/-- Modelled from the spec (see `noOffenseCheck`). -/
def no_offense_against_family (ch : Charge)
    (penalty_limit conviction_limit : Int) (within_years : XInt) :
    Decision :=
  noOffenseCheck "family" ch penalty_limit conviction_limit within_years

/-- Modelled from the spec (see `noOffenseCheck`). -/
def no_firearms_offense (ch : Charge)
    (penalty_limit conviction_limit : Int) (within_years : XInt) :
    Decision :=
  noOffenseCheck "firearms" ch penalty_limit conviction_limit within_years

/-- Modelled from the spec (see `noOffenseCheck`). -/
def no_sexual_offense (ch : Charge)
    (penalty_limit conviction_limit : Int) (within_years : XInt) :
    Decision :=
  noOffenseCheck "sexual" ch penalty_limit conviction_limit within_years

/-- Modelled from the spec (see `noOffenseCheck`). -/
def no_corruption_of_minors_offense (ch : Charge)
    (penalty_limit conviction_limit : Int) (within_years : XInt) :
    Decision :=
  noOffenseCheck "corruption-of-minors" ch penalty_limit conviction_limit
    within_years

/-- Modelled from the spec:
`full_record_requirements_for_petition_sealing` is not in the sources.
Per the spec it ANDs record-wide gating conditions (time-based and
fines-based); its sub-decisions are what `summarize` walks with
`base_decisions`. -/
def full_record_requirements_for_petition_sealing (today : PyDate)
    (rec : CRecord) : Decision :=
  let timeGate : Decision :=
    .mk "Has the record been free of conviction for 10 years?"
      Option.none
      (.bool ((CRecord.years_since_last_arrested_or_prosecuted today
        rec).geInt 10))
      (.text "Modelled: record-wide time gate.")
      Option.none
  let finesGate : Decision :=
    .mk "Are fines and costs paid across the record?"
      Option.none
      (.bool (rec.cases.all (fun c =>
        match c.fines_remaining with
        | some r => decide (r ≤ 0)
        | none => true)))
      (.text "Modelled: record-wide fines gate.")
      Option.none
  .mk "Requirements for sealing any part of a record"
    Option.none
    (.bool (allTruthy [timeGate, finesGate]))
    (.decs [timeGate, finesGate])
    Option.none

/-- Modelled from the spec: `all_fines_and_costs_paid` is not in the
sources; per the spec, fines-remaining ≤ 0 on every case, unknown fines
passing. -/
def all_fines_and_costs_paid (rec : CRecord) : Decision :=
  .mk "Are all fines and costs paid on the record?"
    Option.none
    (.bool (rec.cases.all (fun c =>
      match c.fines_remaining with
      | some r => decide (r ≤ 0)
      | none => true)))
    (.text "Modelled: fines across the record.")
    Option.none

/-- Modelled from the spec:
`record_contains_no_convictions_excluded_from_sealing` is not in the
sources and its statute patterns are not given; the claims settled here
never depend on its value (see `noOffenseCheck`). -/
def record_contains_no_convictions_excluded_from_sealing (_rec : CRecord) :
    Decision :=
  .mk "Does the record contain no convictions excluded from sealing?"
    Option.none
    (.bool true)
    (.text "Modelled: statute-pattern check absent from the sources.")
    Option.none

/-- Modelled from the spec: `ten_years_between_convictions` is not in
the sources.  Per the spec, auto-sealing requires at least 10 years
(non-strict) between a conviction and the next; the years computation
is the source's `CRecord.years_between_convictions`. -/
def ten_years_between_convictions (today : PyDate) (ch : Charge)
    (c : Case) (rec : CRecord) : Except String Decision := do
  let y ← CRecord.years_between_convictions today rec c ch
  pure (.mk ("Have ten years passed between the conviction for " ++
      ch.offense ++ " and the next conviction?")
    Option.none
    (.bool (decide (10 ≤ y)))
    (.text ("It has been " ++ toString y ++ " years."))
    Option.none)

/-- Modelled from the spec: `charge_is_not_excluded_from_sealing` is
not in the sources (see `noOffenseCheck`). -/
def charge_is_not_excluded_from_sealing (ch : Charge) : Decision :=
  .mk ("Is the charge for " ++ ch.offense ++ " not excluded from sealing?")
    Option.none
    (.bool true)
    (.text "Modelled: statute-pattern check absent from the sources.")
    Option.none

/-- Modelled from the spec: `no_m1_or_higher_in_this_case` is not in
the sources.  Per the spec, the case must contain no conviction graded
M1 or more serious. -/
def no_m1_or_higher_in_this_case (c : Case) : Decision :=
  .mk ("Does " ++ c.docket_number ++
      " contain no conviction graded M1 or higher?")
    Option.none
    (.bool (! c.charges.any (fun ch =>
      ch.is_conviction && Charge.grade_GTE ch.grade (some "M1"))))
    (.text "Modelled: grade ceiling across the case.")
    Option.none

end Ssr

/-!
## `RecordLib/analysis/ruledefs/filter_rules.py`
-/

/-- `is_traffic_case`: the docket number contains `"TR"`. -/
def is_traffic_case (c : Case) : Decision :=
  .mk ("Is " ++ c.docket_number ++ " a traffic case?")
    Option.none
    (.bool (strContains c.docket_number "TR"))
    (.text ("The case is " ++
      (if strContains c.docket_number "TR" then "" else "not ") ++
      "a traffic case"))
    Option.none

/-- The case loop of `filter_traffic_cases`: returns the cases kept,
the cases removed, and the per-case decisions, in input order. -/
def trafficLoop : List Case → List Case × List Case × List Decision
  | [] => ([], [], [])
  | c :: cs =>
    let d := is_traffic_case c
    let (kept, removed, ds) := trafficLoop cs
    if d.truthy then (kept, c :: removed, d :: ds)
    else (c :: kept, removed, d :: ds)

/-- `filter_traffic_cases`: drop traffic-court cases from the record,
recording them in the FilterDecision's value. -/
def filter_traffic_cases (rec : CRecord) : CRecord × Decision :=
  let (kept, removed, ds) := trafficLoop rec.cases
  (⟨rec.person, kept⟩,
   .mk "Traffic Court cases removed from consideration."
     (some "Filter") (.cases removed) (.decs ds) Option.none)

/-!
## `RecordLib/analysis/ruledefs/petition_rules.py`
-/

/-- The expungement-reasons text of `expunge_over_70`. -/
def over70Reasons : String :=
  "and the Petitioner is over 70 years old has been free of arrest " ++
  "or prosecution for ten years following from completion the sentence"

/-- `expunge_over_70`: all-or-nothing on the whole record — over 70
(strict), 10 years free of arrest or prosecution (non-strict, via
`years_since_last_contact`), and more than 10 years since final release
(strict).  Raises whatever `years_since_final_release` raises. -/
def expunge_over_70 (today : PyDate) (rec : CRecord) :
    Except String (CRecord × Decision) := do
  let d3 ← Ser.years_since_final_release today rec 10
  let rs := [Ser.is_over_age today rec.person 70,
             Ser.years_since_last_contact today rec 10,
             d3]
  if allTruthy rs then
    let exps := rec.cases.map (fun c =>
      ({ kind := .expungement, client := rec.person, cases := [c],
         expungement_type := .full,
         expungement_reasons := over70Reasons } : Petition))
    pure (⟨rec.person, []⟩,
      .mk "Expungements for a person over 70." (some "Petition")
        (.petitions exps) (.decs rs) Option.none)
  else
    pure (rec,
      .mk "Expungements for a person over 70." (some "Petition")
        (.petitions []) (.decs rs) Option.none)

/-- `expunge_deceased`: full expungement of every case when the person
has been dead for more than 3 years.  The `Expungement(person, c)`
construction passes a single case positionally; the Petition class is
absent from the sources, so per the spec we model it as the petition
covering that case. -/
def expunge_deceased (today : PyDate) (rec : CRecord) :
    CRecord × Decision :=
  let yd := rec.person.years_dead today
  let inner : Decision :=
    .mk ("Has " ++ rec.person.first_name ++ " been deceased for 3 years?")
      Option.none
      (.bool (yd.gtInt 3))
      (.text (if yd.ltInt 0 then
          rec.person.first_name ++ " is not dead, as far as I know."
        else
          "It has been " ++ yd.toStr ++ " since " ++
            rec.person.first_name ++ "\x27s death."))
      Option.none
  let nm := "Expungements for a deceased person, after three years " ++
    "afther their death."
  if allTruthy [inner] then
    let exps := rec.cases.map (fun c =>
      ({ kind := .expungement, client := rec.person, cases := [c],
         expungement_type := .full, expungement_reasons := "" } : Petition))
    (⟨rec.person, []⟩,
     .mk nm (some "Petition") (.petitions exps) (.decs [inner]) Option.none)
  else
    (rec,
     .mk nm (some "Petition") (.petitions []) (.decs [inner]) Option.none)

/-- The charge loop of `expunge_summary_convictions`: splits a case's
charges into expungeable and not-expungeable, with the per-charge
decisions (whose value is set to the outcome).  Raises whenever
`is_summary_conviction` raises (`None` grade). -/
def summaryChargeLoop (arrest_free : Bool) :
    List Charge → Except String (List Charge × List Charge × List Decision)
  | [] => .ok ([], [], [])
  | ch :: rest => do
    let charge_d ← Ser.is_summary_conviction ch
    let cond := arrest_free && charge_d.reasoning.allPy
    let charge_d := charge_d.setValue (.bool cond)
    let (e, u, ds) ← summaryChargeLoop arrest_free rest
    if cond then pure (ch :: e, u, charge_d :: ds)
    else pure (e, ch :: u, charge_d :: ds)

/-- The summary-convictions reasons text. -/
def summaryConvictionReasons : String :=
  ".  The petitioner has been arrest free for more than five years " ++
  "since this summary conviction"

/-- The case loop of `expunge_summary_convictions`.  Note the source's
case-decision value: set to `True` when some charge is expungeable,
then overwritten to `False` when some charge is not; a case with no
charges keeps the default `""`. -/
def summaryCasesLoop (person : Person) (arrest_free : Bool) :
    List Case → Except String (List Case × List Petition × List Decision)
  | [] => .ok ([], [], [])
  | c :: cs => do
    let (e, u, ds) ← summaryChargeLoop arrest_free c.charges
    let caseVal : DVal :=
      if 0 < u.length then .bool false
      else if 0 < e.length then .bool true
      else .str ""
    let case_d : Decision :=
      .mk ("Is " ++ c.docket_number ++ " expungeable?") Option.none
        caseVal (.decs ds) Option.none
    let pet? : Option Petition :=
      if 0 < e.length then
        some { kind := .expungement, client := person,
               cases := [{ c.partialcopy with charges := e }],
               expungement_type :=
                 if e.length = c.charges.length then .full
                 else .partialExpungement,
               expungement_reasons := summaryConvictionReasons }
      else Option.none
    let rem? : Option Case :=
      if 0 < u.length then some { c.partialcopy with charges := u }
      else Option.none
    let (rcs, pets, cds) ← summaryCasesLoop person arrest_free cs
    pure (rem?.toList ++ rcs, pet?.toList ++ pets, case_d :: cds)

/-- `expunge_summary_convictions`: expunge summary convictions when the
record is arrest-free for five years (strict). -/
def expunge_summary_convictions (today : PyDate) (rec : CRecord) :
    Except String (CRecord × Decision) := do
  let arrest_free := Ser.arrest_free_for_n_years today rec 5
  let (rcs, pets, cds) ← summaryCasesLoop rec.person arrest_free.truthy
    rec.cases
  pure (⟨rec.person, rcs⟩,
    .mk "Expungements for summary convictions." (some "Petition")
      (.petitions pets) (.decs (arrest_free :: cds)) Option.none)

/-- The charge loop of `expunge_nonconvictions`: a charge is
expungeable when its `is_conviction_or_unresolved` decision is falsy
and its value is not `None`. -/
def nonconvictionChargeLoop :
    List Charge → List Charge × List Charge × List Decision
  | [] => ([], [], [])
  | ch :: rest =>
    let charge_d := Ser.is_conviction_or_unresolved ch
    let (e, u, ds) := nonconvictionChargeLoop rest
    if !charge_d.truthy && !charge_d.value.isNoneVal then
      (ch :: e, u, charge_d :: ds)
    else (e, ch :: u, charge_d :: ds)

/-- The case loop of `expunge_nonconvictions`. -/
def nonconvictionsCasesLoop (person : Person) :
    List Case → List Case × List Petition × List Decision
  | [] => ([], [], [])
  | c :: cs =>
    let (e, u, ds) := nonconvictionChargeLoop c.charges
    let case_d : Decision :=
      .mk ("Does " ++ c.docket_number ++ " have expungeable nonconvictions?")
        Option.none (.bool (decide (0 < e.length))) (.decs ds) Option.none
    let pet? : Option Petition :=
      if 0 < e.length then
        some { kind := .expungement, client := person,
               cases := [{ c.partialcopy with charges := e }],
               expungement_type :=
                 if e.length = c.charges.length then .full
                 else .partialExpungement,
               expungement_reasons := "" }
      else Option.none
    let rem? : Option Case :=
      if 0 < u.length then some { c.partialcopy with charges := u }
      else Option.none
    let (rcs, pets, cds) := nonconvictionsCasesLoop person cs
    (rem?.toList ++ rcs, pet?.toList ++ pets, case_d :: cds)

/-- `expunge_nonconvictions`: per-charge expungement of charges that
are neither convictions nor unresolved; full vs. partial petition per
case. -/
def expunge_nonconvictions (rec : CRecord) : CRecord × Decision :=
  let (rcs, pets, cds) := nonconvictionsCasesLoop rec.person rec.cases
  (⟨rec.person, rcs⟩,
   .mk "Expungements of nonconvictions." (some "Petition")
     (.petitions pets) (.decs cds) Option.none)

/-- The per-charge decision of `seal_convictions`: the fines decision
plus the six per-charge checks, ANDed with the full-record decision. -/
def sealChargeDecision (fines_decision : Decision) (full_ok : Bool)
    (ch : Charge) : Decision :=
  let rs := [fines_decision,
             Ssr.is_misdemeanor_or_ungraded ch,
             Ssr.no_danger_to_person_offense ch 2 1 .inf,
             Ssr.no_offense_against_family ch 2 1 .inf,
             Ssr.no_firearms_offense ch 2 1 .inf,
             Ssr.no_sexual_offense ch 2 1 .inf,
             Ssr.no_corruption_of_minors_offense ch 2 1 .inf]
  let sealable := allTruthy rs && full_ok
  .mk ("Sealing charge " ++ seqStr ch.sequence ++ ", " ++ ch.offense)
    Option.none
    (.str (if sealable then "Sealable" else "Not sealable"))
    (.decs rs)
    Option.none

/-- The charge loop of `seal_convictions`. -/
def sealChargeLoop (fines_decision : Decision) (full_ok : Bool) :
    List Charge → List Charge × List Charge × List Decision
  | [] => ([], [], [])
  | ch :: rest =>
    let d := sealChargeDecision fines_decision full_ok ch
    let (s, u, ds) := sealChargeLoop fines_decision full_ok rest
    if d.value == .str "Sealable" then (ch :: s, u, d :: ds)
    else (s, ch :: u, d :: ds)

/-- The case loop of `seal_convictions`.  A case where every charge
decision is "Sealable" (vacuously, a case with no charges) yields a
petition and no remainder; a mixed case yields both; a case with no
sealable charge yields only a remainder. -/
def sealCasesLoop (person : Person) (full_rd : Decision) :
    List Case → List Case × List Petition × List Decision
  | [] => ([], [], [])
  | c :: cs =>
    let fines_d := Ssr.restitution_paid c
    let (s, u, ds) := sealChargeLoop fines_d full_rd.truthy c.charges
    let sealable_case : Case := { c.partialcopy with charges := s }
    let unsealable_case : Case := { c.partialcopy with charges := u }
    let allSealable := ds.all (fun d => d.value == .str "Sealable")
    let anySealable := ds.any (fun d => d.value == .str "Sealable")
    let caseVal : String :=
      if allSealable then "All charges sealable"
      else if anySealable then "Some charges sealable"
      else "No charges sealable"
    let case_d : Decision :=
      .mk ("Sealing case " ++ c.docket_number) Option.none
        (.str caseVal) (.decs ds) Option.none
    let pet? : Option Petition :=
      if allSealable || anySealable then
        some { kind := .sealing, client := person,
               cases := [sealable_case] }
      else Option.none
    let rem? : Option Case :=
      if allSealable then Option.none else some unsealable_case
    let (rcs, pets, cds) := sealCasesLoop person full_rd cs
    (rem?.toList ++ rcs, pet?.toList ++ pets, case_d :: cds)

/-- `seal_convictions` (18 Pa.C.S. 9122.1): petition-based sealing. -/
def seal_convictions (today : PyDate) (rec : CRecord) :
    CRecord × Decision :=
  let full_rd := Ssr.full_record_requirements_for_petition_sealing today rec
  let (rcs, pets, cds) := sealCasesLoop rec.person full_rd rec.cases
  (⟨rec.person, rcs⟩,
   .mk "Sealing some convictions under the Clean Slate reforms."
     (some "Petition") (.petitions pets) (.decs (full_rd :: cds))
     Option.none)

/-!
## `RecordLib/analysis/ruledefs/autosealing_rules.py`
-/

/-- `is_charge_autosealable`: the conjunction of the six autosealing
conditions for one charge. -/
def is_charge_autosealable (today : PyDate) (ch : Charge) (c : Case)
    (rec : CRecord) (no_outstanding_fines_costs : Decision)
    (record_not_excluded : Decision) : Except String Decision := do
  let conviction_d : Decision :=
    .mk "Is this a conviction?" Option.none
      (.bool ch.is_conviction)
      (.text (dispStr ch.disposition ++ " is " ++
        (if ch.is_conviction then "" else "not") ++ " a conviction."))
      Option.none
  let tenYears ← Ssr.ten_years_between_convictions today ch c rec
  let rs := [conviction_d, tenYears, no_outstanding_fines_costs,
             Ssr.charge_is_not_excluded_from_sealing ch,
             Ssr.no_m1_or_higher_in_this_case c,
             record_not_excluded]
  pure (.mk ("Is the charge for \x27" ++ ch.offense ++ "\x27 in " ++
      c.docket_number ++ " auto-sealable?")
    Option.none (.bool (allTruthy rs)) (.decs rs) Option.none)

/-- The charge loop of `autosealing_eligibility` for one case. -/
def autosealingChargeLoop (today : PyDate) (c : Case) (rec : CRecord)
    (noFines recNX : Decision) :
    List Charge → Except String (List Charge × List Charge × List Decision)
  | [] => .ok ([], [], [])
  | ch :: rest => do
    let d ← is_charge_autosealable today ch c rec noFines recNX
    let (s, u, ds) ← autosealingChargeLoop today c rec noFines recNX rest
    if d.truthy then pure (ch :: s, u, d :: ds)
    else pure (s, ch :: u, d :: ds)

/-- The case loop of `autosealing_eligibility`: accumulates the
eligible/ineligible case slices and the per-docket reasoning dict,
left to right as the Python loop does (a duplicate docket number
overwrites the earlier dict entry in place). -/
def autosealingCasesLoop (today : PyDate) (rec : CRecord)
    (noFines recNX : Decision)
    (acc : List Case × List Case × List (String × List Decision)) :
    List Case →
      Except String (List Case × List Case × List (String × List Decision))
  | [] => .ok acc
  | c :: cs => do
    let (s, u, ds) ← autosealingChargeLoop today c rec noFines recNX
      c.charges
    let (elig, inelig, entries) := acc
    let eligHere : List Case :=
      if 0 < s.length then [{ c.partialcopy with charges := s }] else []
    let ineligHere : List Case :=
      if 0 < u.length then [{ c.partialcopy with charges := u }] else []
    autosealingCasesLoop today rec noFines recNX
      (elig ++ eligHere, inelig ++ ineligHere,
        dictInsert c.docket_number ds entries) cs

/-- `autosealing_eligibility`: a non-filtering rule returning the
original record and a RecordEligibilityDecision. -/
def autosealing_eligibility (today : PyDate) (rec : CRecord) :
    Except String (CRecord × Decision) := do
  let noFines := Ssr.all_fines_and_costs_paid rec
  let recNX := Ssr.record_contains_no_convictions_excluded_from_sealing rec
  let (elig, inelig, entries) ← autosealingCasesLoop today rec noFines
    recNX ([], [], []) rec.cases
  pure (rec,
    .mk "Eligibility for Automated Sealing" (some "Eligibility")
      (.elig elig inelig) (.byDocket entries) Option.none)

/-!
## `RecordLib/analysis/analysis.py` — Analysis and summarize
-/

/-- The analysis state: the original record (preserved by deep copy, so
a distinct value), the shrinking remainder, and the decision list. -/
structure Analysis where
  record : CRecord
  remaining_record : CRecord
  decisions : List Decision

/-- `Analysis.__init__`. -/
def Analysis.init (rec : CRecord) : Analysis := ⟨rec, rec, []⟩

/-- `Analysis.rule`: apply one rule function to the remainder. -/
def Analysis.rule (a : Analysis)
    (ruledef : CRecord → Except String (CRecord × Decision)) :
    Except String Analysis := do
  let (rem, d) ← ruledef a.remaining_record
  pure ⟨a.record, rem, a.decisions ++ [d]⟩

/-- A chain of `Analysis.rule` calls. -/
def applyRules (a : Analysis)
    (rules : List (CRecord → Except String (CRecord × Decision))) :
    Except String Analysis :=
  match rules with
  | [] => .ok a
  | r :: rs => do
    let a1 ← a.rule r
    applyRules a1 rs

/-- One charge's row of the summary. -/
structure ChargeSummary where
  offense : String
  is_conviction : Bool
  grade : Option String
  disposition : String
  disposition_date : Option PyDate
  next_steps : String
deriving Repr, DecidableEq

/-- One case's row of the summary. -/
structure CaseSummary where
  next_steps : String
  docket_url : Option String
  charges : List (Option String × ChargeSummary)
deriving Repr, DecidableEq

/-- The flattened report: counters plus a docket-keyed dict. -/
structure Summary where
  clearable_cases : Int
  clearable_charges : Int
  cases : List (String × CaseSummary)
deriving Repr, DecidableEq

/-- The placeholder disposition text for a missing disposition. -/
def dispositionCaveat : String :=
  "We could not find the disposition. We are assuming this wasn\x27t a " ++
  "conviction, but could be wrong. A lawyer would be able to help " ++
  "figure this out."

/-- One charge's initial summary row. -/
def chargeEntry (c : Case) (ch : Charge) : ChargeSummary :=
  { offense := ch.offense
    is_conviction := ch.is_conviction
    grade := ch.grade
    disposition := match ch.disposition with
      | some d => d
      | none => dispositionCaveat
    disposition_date := ch.disposition_date <|> c.disposition_date
    next_steps := "" }

/-- The initial summary built from the original record (duplicate
sequence numbers or docket numbers overwrite, as Python dicts do). -/
def buildSummary (rec : CRecord) : Summary :=
  { clearable_cases := 0
    clearable_charges := 0
    cases := rec.cases.foldl
      (fun m c =>
        dictInsert c.docket_number
          { next_steps := ""
            docket_url := c.docket_url
            charges := c.charges.foldl
              (fun cm ch => dictInsert ch.sequence (chargeEntry c ch) cm)
              [] }
          m)
      [] }

/-- `set_next_step`: append `note` to the named case's (or charge's)
`next_steps`; a missing key raises `KeyError`. -/
def setNextStep (s : Summary) (dkt : String) (seq : Option String)
    (note : String) : Except String Summary :=
  match dictGet dkt s.cases with
  | none => .error "KeyError: docket number not in summary"
  | some cse =>
    match seq with
    | none =>
      let cse2 : CaseSummary :=
        { cse with next_steps := cse.next_steps ++ note }
      .ok { s with cases := dictInsert dkt cse2 s.cases }
    | some sq =>
      match dictGet (some sq) cse.charges with
      | none => .error "KeyError: charge sequence not in summary"
      | some chs =>
        let chs2 : ChargeSummary :=
          { chs with next_steps := chs.next_steps ++ note }
        let cse2 : CaseSummary :=
          { cse with charges := dictInsert (some sq) chs2 cse.charges }
        .ok { s with cases := dictInsert dkt cse2 s.cases }

/-- `PetitionDecision.get_cases`:
`[case for petitions in self.value for case in petitions]`.  The
Petition class is absent from the sources; per the spec a petition
names a set of cases, and we model iterating a petition as yielding
them.  Other value shapes raise when iterated. -/
def petitionGetCases : DVal → Except String (List Case)
  | .petitions ps => .ok (ps.map Petition.cases).flatten
  | .cases [] => .ok []
  | .cases _ => .error "TypeError: Case object is not iterable"
  | .str "" => .ok []
  | .str _ => .error "TypeError: str object elements are not cases"
  | .none => .error "TypeError: NoneType object is not iterable"
  | .bool _ => .error "TypeError: bool object is not iterable"
  | .elig _ _ => .error "TypeError: str keys are not cases"

/-- The traffic-court next-step note. -/
def trafficNote : String :=
  "Our system does not review traffic court cases. You can speak " ++
  "with a lawyer about your options for expunging traffic cases. "

/-- The loop of `update_summary_for_traffic_cases`. -/
def trafficFold (s : Summary) : List Case → Except String Summary
  | [] => .ok s
  | c :: cs => do
    let s1 ← setNextStep s c.docket_number Option.none trafficNote
    trafficFold s1 cs

/-- `update_summary_for_traffic_cases`: one case-level note per removed
case; the counters are untouched. -/
def update_summary_for_traffic_cases (s : Summary) (d : Decision) :
    Except String Summary :=
  match d.value with
  | .cases cs => trafficFold s cs
  | .petitions [] => .ok s
  | .str "" => .ok s
  | _ => .error "TypeError: decision value is not a list of cases"

/-- `update_summary_for_over_70_expungements`: the loop body reads
`case.docker_number` — an attribute `Case` does not have — so any
non-empty petition list raises `AttributeError`. -/
def update_summary_for_over_70_expungements (s : Summary) (d : Decision) :
    Except String Summary := do
  let cs ← petitionGetCases d.value
  match cs with
  | [] => .ok s
  | _ =>
    .error "AttributeError: Case object has no attribute docker_number"

/-- `update_summary_for_deceased_expungements`: the loop passes the
`Case` object itself where `set_next_step` expects a docket-number key,
so any non-empty petition list raises `KeyError`. -/
def update_summary_for_deceased_expungements (s : Summary) (d : Decision) :
    Except String Summary := do
  let cs ← petitionGetCases d.value
  match cs with
  | [] => .ok s
  | _ => .error "KeyError: Case object is not a key of the summary"

/-- `\w` of the updaters' regexes. -/
def isWordChar (c : Char) : Bool := c.isAlphanum || c = '_'

/-- Model of `re.search(pre + r"(?P<seq>\w+(?:,\w+)?)" + follow, name)`
for the updaters' charge patterns, anchored at the start of the name
(the only occurrence the rule-generated names can contain): the
sequence group, or `None` when the pattern does not match. -/
def parseChargeSeq (pre follow name : String) : Option String :=
  if strStartsWith name pre then
    let rest := (strDrop name pre.data.length).data
    let w1 := rest.takeWhile isWordChar
    let r1 := rest.dropWhile isWordChar
    if w1 = [] then none
    else
      match r1 with
      | ',' :: r2 =>
        let w2 := r2.takeWhile isWordChar
        let r3 := r2.dropWhile isWordChar
        if w2 ≠ [] ∧ charsPrefix follow.data r3 then
          some (String.mk (w1 ++ ',' :: w2))
        else if charsPrefix follow.data r1 then some (String.mk w1)
        else none
      | _ =>
        if charsPrefix follow.data r1 then some (String.mk w1)
        else none
  else none

/-- Model of `re.search` for the updaters' docket patterns
`pre + r"(?P<docket_number>.+)" + suf`: the text between the fixed
prefix and suffix of the rule-generated name. -/
def parseBetween (pre suf name : String) : Option String :=
  if strStartsWith name pre ∧
      charsPrefix suf.data.reverse name.data.reverse = true ∧
      pre.data.length + suf.data.length < name.data.length then
    some (strDropRight (strDrop name pre.data.length) suf.data.length)
  else none

/-- The nonconviction next-step note. -/
def nonconvictionNote : String :=
  "Nonconviction likely expungeable by petition. "

/-- The charge loop of `update_summary_for_nonconviction_expungements`:
falsy charge decisions are the expungeable ones. -/
def updateNonconvCharges (dkt : String) (s : Summary) (clearable : Bool) :
    List Decision → Except String (Summary × Bool)
  | [] => .ok (s, clearable)
  | d :: ds =>
    if d.truthy = false then
      match parseChargeSeq "Is charge " ", for " d.name with
      | none =>
        .error "AttributeError: NoneType object has no attribute group"
      | some sq => do
        let s1 ← setNextStep s dkt (some sq) nonconvictionNote
        updateNonconvCharges dkt
          { s1 with clearable_charges := s1.clearable_charges + 1 }
          true ds
    else updateNonconvCharges dkt s clearable ds

/-- The case loop of `update_summary_for_nonconviction_expungements`:
a case decision whose name does not carry a docket number is skipped. -/
def updateNonconvCases (s : Summary) :
    List Decision → Except String Summary
  | [] => .ok s
  | cd :: rest =>
    match parseBetween "Does " " have expungeable nonconvictions?"
        cd.name with
    | none => updateNonconvCases s rest
    | some dkt => do
      let (s1, clearable) ←
        match cd.reasoning with
        | .decs ds => updateNonconvCharges dkt s false ds
        | .text _ => .ok (s, false)
        | .byDocket entries =>
          if entries.any (fun e => e.1 = "") then
            .error "AttributeError: str object has no attribute name"
          else .ok (s, false)
      let s2 := if clearable then
          { s1 with clearable_cases := s1.clearable_cases + 1 }
        else s1
      updateNonconvCases s2 rest

/-- `update_summary_for_nonconviction_expungements`. -/
def update_summary_for_nonconviction_expungements (s : Summary)
    (d : Decision) : Except String Summary :=
  match d.reasoning with
  | .decs ds => updateNonconvCases s ds
  | .text "" => .ok s
  | .text _ => .error "AttributeError: str object has no attribute name"
  | .byDocket [] => .ok s
  | .byDocket _ => .error "AttributeError: str object has no attribute name"

/-- The charge loop of `update_summary_for_summary_convictions`. -/
def updateSummaryConvCharges (dkt : String) (arrest_free : Decision)
    (s : Summary) (clearable : Bool) :
    List Decision → Except String (Summary × Bool)
  | [] => .ok (s, clearable)
  | d :: ds =>
    match parseChargeSeq "Is the charge " " for " d.name with
    | none =>
      .error "AttributeError: NoneType object has no attribute group"
    | some sq =>
      if d.truthy && arrest_free.truthy then do
        let s1 ← setNextStep s dkt (some sq) "Charge likely can be expunged. "
        updateSummaryConvCharges dkt arrest_free
          { s1 with clearable_charges := s1.clearable_charges + 1 }
          true ds
      else if d.truthy then
        match arrest_free.reasoning with
        | .text t => do
          let s1 ← setNextStep s dkt (some sq)
            ("Charge likely cannot be expunged yet. There must be five " ++
              "(5) years since the last arrest for prosecution. " ++ t)
          updateSummaryConvCharges dkt arrest_free s1 clearable ds
        | _ => .error "TypeError: can only concatenate str"
      else updateSummaryConvCharges dkt arrest_free s clearable ds

/-- The case loop of `update_summary_for_summary_convictions`. -/
def updateSummaryConvCases (arrest_free : Decision) (s : Summary) :
    List Decision → Except String Summary
  | [] => .ok s
  | cd :: rest =>
    match parseBetween "Is " " expungeable?" cd.name with
    | none =>
      .error "AttributeError: NoneType object has no attribute group"
    | some dkt => do
      let (s1, clearable) ←
        match cd.reasoning with
        | .decs ds => updateSummaryConvCharges dkt arrest_free s false ds
        | .text "" => .ok (s, false)
        | .text _ =>
          .error "AttributeError: str object has no attribute name"
        | .byDocket [] => .ok (s, false)
        | .byDocket _ =>
          .error "AttributeError: str object has no attribute name"
      let s2 := if clearable then
          { s1 with clearable_cases := s1.clearable_cases + 1 }
        else s1
      updateSummaryConvCases arrest_free s2 rest

/-- `update_summary_for_summary_convictions`: the first reasoning entry
is the arrest-free decision, the rest are case decisions. -/
def update_summary_for_summary_convictions (s : Summary) (d : Decision) :
    Except String Summary :=
  match d.reasoning with
  | .decs [] => .error "IndexError: list index out of range"
  | .decs (af :: rest) => updateSummaryConvCases af s rest
  | .text "" => .error "IndexError: string index out of range"
  | .text t =>
    if t.length = 1 then .ok s
    else .error "AttributeError: str object has no attribute name"
  | .byDocket _ => .error "KeyError: 0"

mutual
/-- `_base_decisions`: a decision whose reasoning holds no child
decisions is its own base; otherwise the bases of its children.
`reasoning[0]` on a dict raises `KeyError` (only `AssertionError` and
`IndexError` are caught in the source). -/
def baseDec : Decision → Except String (List Decision)
  | .mk _ _ _ (.decs (x :: xs)) _ =>
    baseDecList (x :: xs)
  | .mk _ _ _ (.byDocket _) _ => .error "KeyError: 0"
  | d => .ok [d]

/-- `base_decisions` over a list (with `flatten`). -/
def baseDecList : List Decision → Except String (List Decision)
  | [] => .ok []
  | d :: ds => do
    let b ← baseDec d
    let rest ← baseDecList ds
    pure (b ++ rest)
end

/-- `str(x)` of a reasoning value as interpolated into an f-string. -/
def reasoningStr : Reasoning → String
  | .text s => s
  | .decs _ => "[Decisions]"
  | .byDocket _ => "\x7bDecisions\x7d"

/-- Python `max(ds, key=lambda d: d.years_to_wait)` starting from `d`
(first maximal element wins); a missing attribute raised earlier. -/
def maxByYears (d : Decision) : List Decision → Decision
  | [] => d
  | x :: xs =>
    if (d.years_to_wait.getD 0) < (x.years_to_wait.getD 0) then
      maxByYears x xs
    else maxByYears d xs

/-- `fines_and_wait_for_sealing`: the (falsy) fines decision of the
charge, and the wait decisions of the full-record decision when they
are the only negatives.  `partition_decisions` reads `d.type`, which a
plain `Decision` does not have. -/
def fines_and_wait_for_sealing (charge_d full_rd : Decision) :
    Except String (Option Decision × Option (List Decision)) := do
  let finesList ←
    match charge_d.reasoning with
    | .decs ds => Except.ok (ds.filter (fun d =>
        strStartsWith d.name "Fines and costs are all paid on the case "))
    | .text "" => Except.ok []
    | .text _ =>
      Except.error "AttributeError: str object has no attribute name"
    | .byDocket [] => Except.ok []
    | .byDocket _ =>
      Except.error "AttributeError: str object has no attribute name"
  let fines : Option Decision :=
    match finesList.head? with
    | none => none
    | some f => if f.truthy then none else some f
  let fullRs ←
    match full_rd.reasoning with
    | .decs ds => baseDecList ds
    | .text "" => Except.ok []
    | .text _ =>
      Except.error "AttributeError: str object has no attribute reasoning"
    | .byDocket [] => Except.ok []
    | .byDocket _ =>
      Except.error "AttributeError: str object has no attribute reasoning"
  let negatives := fullRs.filter (fun d => d.truthy = false)
  if negatives.any (fun d => d.dtype = Option.none) then
    Except.error "AttributeError: Decision object has no attribute type"
  else
    let waits := negatives.filter (fun d => d.dtype = some "Wait")
    let others := negatives.filter (fun d => d.dtype ≠ some "Wait")
    if others.isEmpty then pure (fines, some waits)
    else pure (fines, Option.none)

/-- `[0-9,]` of the sealing updater's charge pattern. -/
def isSealSeqChar (c : Char) : Bool := c.isDigit || c = ','

/-- Model of `re.search(r"Sealing charge (?P<sequence>[0-9,]+), .*")`
on a rule-generated name: the greedy digit-and-comma run must end at
a `", "` separator, whose comma the run's last character provides. -/
def parseChargeSeqSealing (name : String) : Option String :=
  if strStartsWith name "Sealing charge " then
    let rest := (strDrop name "Sealing charge ".data.length).data
    let w := rest.takeWhile isSealSeqChar
    let r := rest.dropWhile isSealSeqChar
    match w.getLast?, r.head? with
    | some ',', some ' ' =>
      if w.dropLast ≠ [] then some (String.mk w.dropLast) else none
    | _, _ => none
  else none

/-- Model of `re.search(pre + r"(?P<docket_number>.*)")` on a
rule-generated name: everything after the fixed prefix. -/
def parseAfter (pre name : String) : Option String :=
  if strStartsWith name pre then some (strDrop name pre.data.length)
  else none

/-- `len(x)` of a reasoning value. -/
def reasoningLen : Reasoning → Int
  | .text s => s.length
  | .decs ds => ds.length
  | .byDocket entries => entries.length

/-- The not-"Sealable" branch of the sealing updater's charge loop.
When `fines_and_wait_for_sealing` returns no fines decision (fines were
fine, or none found), the source immediately reads
`fines_all_paid.reasoning` on `None` and raises `AttributeError`; only
the fines-owed paths complete. -/
def updateSealingChargeBlocked (dkt : String) (sq : String)
    (full_rd charge_d : Decision) (s : Summary) :
    Except String Summary := do
  let (fines, waits) ← fines_and_wait_for_sealing charge_d full_rd
  match fines with
  | none =>
    .error "AttributeError: NoneType object has no attribute reasoning"
  | some f =>
    let base := reasoningStr f.reasoning ++
      " Fines remaining on this case must be resolved before the " ++
      "charge can be sealed."
    match waits with
    | some (w :: ws) =>
      if (w :: ws).any (fun d => d.years_to_wait = Option.none) then
        .error "AttributeError: Decision object has no attribute years_to_wait"
      else
        let m := maxByYears w ws
        let step := base ++ " In addition, it looks like you must wait " ++
          toString (m.years_to_wait.getD 0) ++ " before eligibility. " ++
          reasoningStr m.reasoning
        do
          let s1 ← setNextStep s dkt (some sq) step
          setNextStep s1 dkt (some sq) step
    | _ => setNextStep s dkt (some sq) base

/-- The charge loop of `update_summary_for_sealing_convictions`. -/
def updateSealingCharges (dkt : String) (full_rd : Decision)
    (s : Summary) (clearable : Bool) :
    List Decision → Except String (Summary × Bool)
  | [] => .ok (s, clearable)
  | cd :: ds =>
    match parseChargeSeqSealing cd.name with
    | none =>
      .error "AttributeError: NoneType object has no attribute group"
    | some sq =>
      if cd.value == .str "Sealable" then do
        let s1 ← setNextStep s dkt (some sq)
          "Charge is likely sealable by petition. "
        updateSealingCharges dkt full_rd
          { s1 with clearable_charges := s1.clearable_charges + 1 }
          true ds
      else do
        let s1 ← updateSealingChargeBlocked dkt sq full_rd cd s
        updateSealingCharges dkt full_rd s1 clearable ds

/-- The case loop of `update_summary_for_sealing_convictions`. -/
def updateSealingCases (full_rd : Decision) (s : Summary) :
    List Decision → Except String Summary
  | [] => .ok s
  | cd :: rest =>
    match parseAfter "Sealing case " cd.name with
    | none =>
      .error "AttributeError: NoneType object has no attribute group"
    | some dkt =>
      if cd.value == .str "All charges sealable" then do
        let s1 ← setNextStep s dkt Option.none
          "Case likely sealable by petition. "
        updateSealingCases full_rd
          { s1 with
            clearable_cases := s1.clearable_cases + 1
            clearable_charges :=
              s1.clearable_charges + reasoningLen cd.reasoning }
          rest
      else do
        let (s1, clearable) ←
          match cd.reasoning with
          | .decs ds => updateSealingCharges dkt full_rd s false ds
          | .text "" => Except.ok (s, false)
          | .text _ =>
            Except.error "AttributeError: str object has no attribute name"
          | .byDocket [] => Except.ok (s, false)
          | .byDocket _ =>
            Except.error "AttributeError: str object has no attribute name"
        let s2 := if clearable then
            { s1 with clearable_cases := s1.clearable_cases + 1 }
          else s1
        updateSealingCases full_rd s2 rest

/-- `update_summary_for_sealing_convictions`: the first reasoning entry
is the full-record decision, the rest are case decisions. -/
def update_summary_for_sealing_convictions (s : Summary) (d : Decision) :
    Except String Summary :=
  match d.reasoning with
  | .decs [] => .error "IndexError: list index out of range"
  | .decs (full_rd :: rest) => updateSealingCases full_rd s rest
  | .text "" => .error "IndexError: string index out of range"
  | .text t =>
    if t.length = 1 then .ok s
    else .error "AttributeError: str object has no attribute name"
  | .byDocket _ => .error "KeyError: 0"

/-- The per-charge body of `update_summary_for_automated_sealing`. -/
def updateAutosealCharge (dkt : String) (s : Summary) (clearable : Bool)
    (cd : Decision) : Except String (Summary × Bool) :=
  match parseChargeSeq "Is the charge " " for " cd.name with
  | none =>
    .error "AttributeError: NoneType object has no attribute group"
  | some sq =>
    if cd.truthy then do
      let s1 ← setNextStep
        { s with clearable_charges := s.clearable_charges + 1 }
        dkt (some sq) "This charge may be automatically sealed."
      pure (s1, true)
    else
      match cd.reasoning with
      | .decs [] => .error "IndexError: list index out of range"
      | .decs (r0 :: restRs) =>
        if r0.truthy && allTruthy ((r0 :: restRs).drop 2) then do
          let s1 ← setNextStep s dkt (some sq)
            "This charge may be eligible for automatic sealing once all fines are paid."
          pure (s1, clearable)
        else if allTruthy restRs then
          match r0.reasoning with
          | .text t => do
            let s1 ← setNextStep s dkt (some sq)
              ("This charge may become sealable." ++ t)
            pure (s1, clearable)
          | _ => .error "TypeError: can only concatenate str"
        else pure (s, clearable)
      | .text "" => .error "IndexError: string index out of range"
      | .text _ => do
        let s1 ← setNextStep s dkt (some sq)
          "This charge may be eligible for automatic sealing once all fines are paid."
        pure (s1, clearable)
      | .byDocket _ => .error "KeyError: 0"

/-- The charge loop of `update_summary_for_automated_sealing` for one
docket entry. -/
def updateAutosealCharges (dkt : String) (s : Summary) (clearable : Bool) :
    List Decision → Except String (Summary × Bool)
  | [] => .ok (s, clearable)
  | cd :: ds => do
    let (s1, c1) ← updateAutosealCharge dkt s clearable cd
    updateAutosealCharges dkt s1 c1 ds

/-- The docket loop of `update_summary_for_automated_sealing`. -/
def updateAutosealEntries (s : Summary) :
    List (String × List Decision) → Except String Summary
  | [] => .ok s
  | (dkt, ds) :: rest => do
    let (s1, clearable) ← updateAutosealCharges dkt s false ds
    let s2 := if clearable then
        { s1 with clearable_cases := s1.clearable_cases + 1 }
      else s1
    updateAutosealEntries s2 rest

/-- `update_summary_for_automated_sealing`: walks the per-docket
reasoning dict; `.items()` on a non-dict raises `AttributeError`. -/
def update_summary_for_automated_sealing (s : Summary) (d : Decision) :
    Except String Summary :=
  match d.reasoning with
  | .byDocket entries => updateAutosealEntries s entries
  | .decs _ => .error "AttributeError: list object has no attribute items"
  | .text _ => .error "AttributeError: str object has no attribute items"

/-- The error message for a decision name `summarize` does not know. -/
def unrecognizedMsg (n : String) : String :=
  "Decision named " ++ n ++ " not recognized in summarize()."

/-- The names `summarize` dispatches on — the closed set of rule
decisions it understands. -/
def knownNames : List String :=
  ["Traffic Court cases removed from consideration.",
   "Expungements for a person over 70.",
   "Expungements for a deceased person, after three years afther their death.",
   "Expungements of nonconvictions.",
   "Expungements for summary convictions.",
   "Sealing some convictions under the Clean Slate reforms.",
   "Eligibility for Automated Sealing"]

/-- The `if/elif` chain of `summarize`: the interpreter for a decision
name, or `none` for an unrecognized name. -/
def decisionUpdater (n : String) :
    Option (Summary → Decision → Except String Summary) :=
  if n = "Traffic Court cases removed from consideration." then
    some update_summary_for_traffic_cases
  else if n = "Expungements for a person over 70." then
    some update_summary_for_over_70_expungements
  else if n =
      "Expungements for a deceased person, after three years afther their death."
    then
    some update_summary_for_deceased_expungements
  else if n = "Expungements of nonconvictions." then
    some update_summary_for_nonconviction_expungements
  else if n = "Expungements for summary convictions." then
    some update_summary_for_summary_convictions
  else if n = "Sealing some convictions under the Clean Slate reforms." then
    some update_summary_for_sealing_convictions
  else if n = "Eligibility for Automated Sealing" then
    some update_summary_for_automated_sealing
  else none

/-- The dispatch on one decision: route to the interpreter for its
name, or record an unrecognized-decision error and keep going. -/
def dispatchDecision (s : Summary) (errs : List String) (d : Decision) :
    Except String (Summary × List String) :=
  match decisionUpdater d.name with
  | some u => (u s d).map (fun s1 => (s1, errs))
  | none => .ok (s, errs ++ [unrecognizedMsg d.name])

/-- The decision loop of `summarize`. -/
def processDecisions (s : Summary) (errs : List String) :
    List Decision → Except String (Summary × List String)
  | [] => .ok (s, errs)
  | d :: ds => do
    let (s1, e1) ← dispatchDecision s errs d
    processDecisions s1 e1 ds

/-- The zero-charge transfer note of `summarize`'s post-pass. -/
def transferNote : String :=
  "The software was not able to find any charges in this case. This " ++
  "case may be a civil case unrelated to criminal charges. Or this " ++
  "case may be related to another (such as through a transfer), in " ++
  "which case sealing or expunging the other case may seal or " ++
  "expunge this one as well."

/-- The pardon note of `summarize`'s post-pass. -/
def pardonNote : String :=
  "You may need a pardon before this can be expunged or sealed. "

/-- `summarize`'s post-pass for one case: a chargeless case gets the
transfer note (replacing any earlier note); a case left without next
steps, holding a charge without next steps and some conviction, gets
the pardon note. -/
def postPassCase (cs : CaseSummary) : CaseSummary :=
  if cs.charges.isEmpty then { cs with next_steps := transferNote }
  else if cs.next_steps = "" &&
      cs.charges.any (fun e => e.2.next_steps = "") &&
      cs.charges.any (fun e => e.2.is_conviction) then
    { cs with next_steps := pardonNote }
  else cs

/-- `summarize`'s post-pass over the whole summary. -/
def postPass (s : Summary) : Summary :=
  { s with cases := s.cases.map (fun e => (e.1, postPassCase e.2)) }

/-- `summarize`: build the per-case/per-charge report from the original
record, interpret each decision (collecting unrecognized-decision
errors), then apply the post-pass. -/
def summarize (a : Analysis) : Except String (Summary × List String) := do
  let s0 := buildSummary a.record
  let (s1, errs) ← processDecisions s0 [] a.decisions
  pure (postPass s1, errs)

/-!
## Concrete inputs used by the scenario claims
-/

/-- A fixed `date.today()` for the scenario evaluations. -/
def testToday : PyDate := ⟨2026, 10, 12⟩

/-- A 75-year-old person (born 1951). -/
def person75 : Person :=
  { first_name := "Joan", last_name := "Smith",
    date_of_birth := some ⟨1951, 1, 1⟩ }

/-- A confinement sentence ending 2014-10-01 (12 years before
`testToday`). -/
def sentence75 : Sentence :=
  { sentence_date := some ⟨2014, 10, 1⟩
    sentence_type := some "Confinement"
    sentence_period := some ""
    sentence_length := some ⟨some 0, some 0⟩ }

/-- An M2 conviction with the confinement sentence. -/
def charge75 : Charge :=
  { offense := "Theft", grade := some "M2", statute := "18 § 3921",
    sequence := some "1", disposition := some "Guilty",
    disposition_date := some ⟨2015, 6, 15⟩, sentences := some [sentence75] }

/-- One closed case, last action 2015-06-15 (11 years before
`testToday`). -/
def case75 : Case :=
  { docket_number := "CP-51-CR-0000001-2015", status := some "Closed",
    charges := [charge75], arrest_date := some ⟨2015, 6, 1⟩,
    disposition_date := some ⟨2015, 6, 15⟩, otn := some "X1" }

/-- The over-70 scenario record: aged 75, one case with one M2
conviction, last arrest 11 years ago, fully released 12 years ago. -/
def rec75 : CRecord := { person := person75, cases := [case75] }

/-- A person for the nonconviction scenario. -/
def personS : Person :=
  { first_name := "Sal", last_name := "Paolo",
    date_of_birth := some ⟨1980, 1, 1⟩ }

/-- The "Nolle Prossed" charge of the nonconviction scenario. -/
def chargeNolle : Charge :=
  { offense := "Off1", grade := some "M1", statute := "18 § 1",
    sequence := some "1", disposition := some "Nolle Prossed" }

/-- The "Guilty" charge of the nonconviction scenario. -/
def chargeGuilty : Charge :=
  { offense := "Off2", grade := some "M1", statute := "18 § 2",
    sequence := some "2", disposition := some "Guilty" }

/-- The one case of the nonconviction scenario, holding both charges. -/
def caseS : Case :=
  { docket_number := "MC-123", status := some "Closed",
    charges := [chargeNolle, chargeGuilty] }

/-- The nonconviction scenario record. -/
def recS : CRecord := { person := personS, cases := [caseS] }

/-- A charge with an empty sentence list (so `was_confined` is a clean
`False`) on an Active case. -/
def chargeActive : Charge :=
  { offense := "Off3", grade := some "S", statute := "18 § 3",
    sequence := some "1", disposition := some "Guilty",
    sentences := some [] }

/-- An Active-status case that never led to confinement. -/
def caseActive : Case :=
  { docket_number := "MC-777", status := some "Active",
    charges := [chargeActive] }

/-- A record with an Active case and no confinement. -/
def recActive : CRecord := { person := personS, cases := [caseActive] }

/-- A record with no cases at all. -/
def recEmpty : CRecord := { person := personS, cases := [] }

/-- A decision whose name no summarize interpreter recognizes. -/
def bogusDecision : Decision :=
  .mk "Bogus decision" Option.none (.str "") (.text "") Option.none

/-- A traffic-court case (docket number contains "TR"). -/
def caseTR : Case :=
  { docket_number := "MC-TR-999", status := some "Closed",
    charges := [chargeGuilty] }

/-- A record holding a traffic case and a normal case. -/
def recTR : CRecord := { person := personS, cases := [caseTR, caseS] }

/-- An unrecognized grade token for the grade-order claims. -/
def weirdGrade : String := "Z7"

/-- A charge whose grade is `None`. -/
def chargeNoGrade : Charge :=
  { offense := "Off4", grade := Option.none, statute := "18 § 4",
    sequence := some "1", disposition := some "Guilty" }

/-- The rule sequence of the composite analysis (the total rules
wrapped into the fallible rule type). -/
def stdRules (today : PyDate) :
    List (CRecord → Except String (CRecord × Decision)) :=
  [fun r => .ok (filter_traffic_cases r),
   expunge_over_70 today,
   fun r => .ok (expunge_deceased today r),
   fun r => .ok (expunge_nonconvictions r),
   expunge_summary_convictions today,
   fun r => .ok (seal_convictions today r),
   autosealing_eligibility today]

/-!
## Theorems
-/

/-- `do`-reduction for `Except`: binding an `ok`. -/
theorem exceptBindOk {ε α β : Type} (a : α) (f : α → Except ε β) :
    ((Except.ok a : Except ε α) >>= f) = f a := rfl

/-- `do`-reduction for `Except`: binding an `error`. -/
theorem exceptBindErr {ε α β : Type} (e : ε) (f : α → Except ε β) :
    ((Except.error e : Except ε α) >>= f) = .error e := rfl

/-- `pure` on `Except` is `ok`. -/
theorem exceptPure {ε α : Type} (a : α) :
    (pure a : Except ε α) = .ok a := rfl

/-- C8: `Charge.is_conviction` never raises; it is false whenever the
disposition is `None` or empty, and true exactly when the stripped
disposition text begins with the leading token "Guilty"
(case-sensitive). -/
theorem is_conviction_spec (ch : Charge) :
    (ch.is_conviction = true ↔
      ∃ s, ch.disposition = some s ∧ strStartsWith (pyStrip s) "Guilty" = true) ∧
    ((ch.disposition = Option.none ∨ ch.disposition = some "") →
      ch.is_conviction = false) := by
  constructor
  · constructor
    · intro h
      cases hd : ch.disposition with
      | none => rw [Charge.is_conviction, hd] at h; exact absurd h (by simp)
      | some s =>
        refine ⟨s, rfl, ?_⟩
        rw [Charge.is_conviction, hd] at h
        exact h
    · rintro ⟨s, hs, hp⟩
      rw [Charge.is_conviction, hs]
      exact hp
  · rintro (h | h)
    · rw [Charge.is_conviction, h]
    · rw [Charge.is_conviction, h]
      decide

/-- C8 witness: a charge with an empty disposition is not a
conviction. -/
theorem is_conviction_spec_witness :
    Charge.is_conviction
      { offense := "Off", grade := some "S", statute := "18 § 1",
        disposition := some "" } = false :=
  (is_conviction_spec _).2 (Or.inr rfl)

/-- C10: `years_since_last_contact` compares the record's years since
last arrest or prosecution non-strictly against the literal 10 whatever
`year_min` is passed (the parameter reaches only the display name),
while `arrest_free_for_n_years` compares strictly against its
parameter. -/
theorem years_since_last_contact_fixed_threshold (today : PyDate)
    (rec : CRecord) (ymin ymin2 : Int) :
    (Ser.years_since_last_contact today rec ymin).value =
      .bool ((CRecord.years_since_last_arrested_or_prosecuted today
        rec).geInt 10) ∧
    (Ser.years_since_last_contact today rec ymin).value =
      (Ser.years_since_last_contact today rec ymin2).value ∧
    (Ser.years_since_last_contact today rec ymin).name =
      "Has " ++ rec.person.first_name ++
        " been free of arrest or prosecution for " ++ toString ymin ++
        " years?" ∧
    (Ser.arrest_free_for_n_years today rec ymin).value =
      .bool ((CRecord.years_since_last_arrested_or_prosecuted today
        rec).gtInt ymin) :=
  ⟨rfl, rfl, rfl, rfl⟩

/-- C7 counterexample: `is_summary` on a charge whose grade is `None`
raises `AttributeError` instead of completing. -/
theorem is_summary_none_grade_raises :
    Ser.is_summary chargeNoGrade =
      .error "AttributeError: NoneType object has no attribute strip" :=
  rfl

/-- C7 (amended): `grade_GTE` never raises and treats an unrecognized
grade token exactly as the lowest severity (index 0, the same as `""`),
and `is_summary` completes for every charge whose grade is a string
(unrecognized tokens included) — but a `None` grade raises
`AttributeError` in `is_summary`. -/
theorem grade_handling_spec :
    (∀ g : String, g ∉ Charge.gradesList →
      Charge.gradeIndex (some g) = 0) ∧
    (∀ (g : String) (b : Option String), g ∉ Charge.gradesList →
      Charge.grade_GTE b (some g) = true) ∧
    (∀ (g : String) (b : Option String), g ∉ Charge.gradesList →
      Charge.grade_GTE (some g) b = Charge.grade_GTE (some "") b) ∧
    (∀ (ch : Charge) (gr : String), ch.grade = some gr →
      Ser.is_summary ch =
        .ok (.mk ("Is this charge for " ++ ch.offense ++ " a summary?")
          Option.none
          (.bool (pyStrip gr == "S"))
          (.text ("The charge\x27s grade is " ++ pyStrip gr))
          Option.none)) := by
  have hidx : ∀ g : String, g ∉ Charge.gradesList →
      Charge.gradeIndex (some g) = 0 := by
    intro g hg
    rw [Charge.gradeIndex]
    rw [List.indexOf_eq_length.2 hg]
    simp
  refine ⟨hidx, ?_, ?_, ?_⟩
  · intro g b hg
    rw [Charge.grade_GTE, hidx g hg]
    simp
  · intro g b hg
    rw [Charge.grade_GTE, Charge.grade_GTE, hidx g hg]
    rfl
  · intro ch gr hgr
    rw [Ser.is_summary, hgr]

/-- C5: threading the over-70 scenario record through the seven
composite rules succeeds, but `summarize` then raises `AttributeError`
(its over-70 interpreter reads `case.docker_number`, an attribute
`Case` does not have) instead of returning a (summary, errors) pair —
the accumulate-errors-never-abort contract does not hold. -/
theorem summarize_pipeline_raises :
    (applyRules (Analysis.init rec75) (stdRules testToday)).bind summarize =
      .error "AttributeError: Case object has no attribute docker_number" :=
  rfl

/-- C6 counterexample: merging a charge whose disposition is `None`
into a charge with a present disposition raises `TypeError` (the
disposition branch calls `re.search` on `None`) instead of keeping the
present disposition. -/
theorem combine_with_none_disposition_raises :
    Charge.combine_with chargeGuilty
      { chargeGuilty with disposition := Option.none } =
      .error "TypeError: expected string or bytes-like object" :=
  rfl

/-- C3 helper: when no case of the list was confined, the confinement
end comprehension is empty. -/
theorem confinementEnds_nil_of_not_confined :
    ∀ cs : List Case, (∀ c ∈ cs, c.was_confined = .ok false) →
      CRecord.confinementEnds cs = .ok []
  | [], _ => rfl
  | c :: cs, h => by
    have hc := h c (List.mem_cons_self c cs)
    have ih := confinementEnds_nil_of_not_confined cs
      (fun c' hc' => h c' (List.mem_cons_of_mem c hc'))
    rw [CRecord.confinementEnds]
    rw [hc]
    simpa using ih

/-- C3: with zero cases, both temporal queries answer `Inf`; an
"Active"-status case pins years-since-last-arrest to 0; and a record in
which no case involved confinement has `Inf` years since final
release. -/
theorem record_temporal_defaults (today : PyDate) (rec : CRecord) :
    (rec.cases = [] →
      CRecord.years_since_last_arrested_or_prosecuted today rec = .inf ∧
      CRecord.years_since_final_release today rec = .ok .inf) ∧
    ((∃ c ∈ rec.cases, ∃ st, c.status = some st ∧
        strContains st "Active" = true) →
      CRecord.years_since_last_arrested_or_prosecuted today rec = .fin 0) ∧
    ((∀ c ∈ rec.cases, c.was_confined = .ok false) →
      CRecord.years_since_final_release today rec = .ok .inf) := by
  refine ⟨?_, ?_, ?_⟩
  · intro h
    constructor
    · rw [CRecord.years_since_last_arrested_or_prosecuted, if_pos h]
    · rw [CRecord.years_since_final_release, h]
      rfl
  · rintro ⟨c, hc, st, hst, hact⟩
    have hne : rec.cases ≠ [] := by
      intro h0
      rw [h0] at hc
      exact absurd hc (List.not_mem_nil c)
    have hany : rec.cases.any (fun c =>
        match c.status with
        | some s => strContains s "Active"
        | none => false) = true := by
      refine List.any_eq_true.2 ⟨c, hc, ?_⟩
      rw [hst]
      exact hact
    rw [CRecord.years_since_last_arrested_or_prosecuted, if_neg hne,
      if_pos hany]
  · intro h
    rw [CRecord.years_since_final_release,
      confinementEnds_nil_of_not_confined rec.cases h]
    rfl

/-- C3 witness: the empty record answers `Inf` twice; the Active-case
record answers 0 years since last arrest and `Inf` years since final
release (its only charge has an empty sentence list). -/
theorem record_temporal_defaults_witness :
    CRecord.years_since_last_arrested_or_prosecuted testToday recEmpty =
      .inf ∧
    CRecord.years_since_final_release testToday recEmpty = .ok .inf ∧
    CRecord.years_since_last_arrested_or_prosecuted testToday recActive =
      .fin 0 ∧
    CRecord.years_since_final_release testToday recActive = .ok .inf := by
  refine ⟨?_, ?_, ?_, ?_⟩
  · exact ((record_temporal_defaults testToday recEmpty).1 rfl).1
  · exact ((record_temporal_defaults testToday recEmpty).1 rfl).2
  · exact (record_temporal_defaults testToday recActive).2.1
      ⟨caseActive, List.mem_cons_self _ _, "Active", rfl, by decide⟩
  · exact (record_temporal_defaults testToday recActive).2.2
      (by intro c hc; cases hc with
        | head => rfl
        | tail _ h => exact absurd h (List.not_mem_nil c))

/-- C2: when `expunge_over_70` returns, then — exactly when the person
is over 70, has been free of arrest or prosecution for at least 10
years, and has more than 10 years since final release — the remaining
record is empty and the decision's value holds one full-expungement
petition per input case; otherwise the value is empty and the record is
returned unchanged.  In particular the 75-year-old scenario record
yields an empty remainder and exactly one full-expungement petition
covering its case. -/
theorem expunge_over_70_spec (today : PyDate) (rec rem : CRecord)
    (d : Decision) (h : expunge_over_70 today rec = .ok (rem, d)) :
    ((70 < rec.person.age today ∧
      (CRecord.years_since_last_arrested_or_prosecuted today rec).geInt 10
        = true ∧
      (∃ y, CRecord.years_since_final_release today rec = .ok y ∧
        y.gtInt 10 = true)) →
      (rem = ⟨rec.person, []⟩ ∧
       d.value = .petitions (rec.cases.map (fun c =>
         { kind := .expungement, client := rec.person, cases := [c],
           expungement_type := .full,
           expungement_reasons := over70Reasons })))) ∧
    ((¬ (70 < rec.person.age today ∧
      (CRecord.years_since_last_arrested_or_prosecuted today rec).geInt 10
        = true ∧
      (∃ y, CRecord.years_since_final_release today rec = .ok y ∧
        y.gtInt 10 = true))) →
      (d.value = .petitions [] ∧ rem = rec)) ∧
    (∃ rm dd, expunge_over_70 testToday rec75 = .ok (rm, dd) ∧
      rm = ⟨person75, []⟩ ∧
      dd.value = .petitions [{ kind := .expungement, client := person75,
                               cases := [case75], expungement_type := .full,
                               expungement_reasons := over70Reasons }]) := by
  refine ⟨?_, ?_, ⟨_, _, rfl, rfl, rfl⟩⟩
  · rintro ⟨h1, h2, y0, hy0, h3⟩
    unfold expunge_over_70 Ser.years_since_final_release at h
    rw [hy0] at h
    simp only [exceptBindOk, exceptPure] at h
    split at h
    · have hsplit := Except.ok.inj h
      rw [Prod.mk.injEq] at hsplit
      obtain ⟨hrem, hd⟩ := hsplit
      subst hrem hd
      exact ⟨rfl, rfl⟩
    · exfalso
      rename_i hb
      apply hb
      simp only [allTruthy, List.all_cons, List.all_nil, Bool.and_true,
        Bool.and_eq_true, Decision.truthy, Decision.value, DVal.truthy,
        Ser.is_over_age, Ser.years_since_last_contact, decide_eq_true_eq]
      exact ⟨h1, h2, h3⟩
  · intro hcond
    cases hy : CRecord.years_since_final_release today rec with
    | error e =>
      exfalso
      unfold expunge_over_70 Ser.years_since_final_release at h
      rw [hy] at h
      simp only [exceptBindErr] at h
      exact Except.noConfusion h
    | ok y =>
      unfold expunge_over_70 Ser.years_since_final_release at h
      rw [hy] at h
      simp only [exceptBindOk, exceptPure] at h
      split at h
      · exfalso
        rename_i hb
        apply hcond
        simp only [allTruthy, List.all_cons, List.all_nil, Bool.and_true,
          Bool.and_eq_true, Decision.truthy, Decision.value, DVal.truthy,
          Ser.is_over_age, Ser.years_since_last_contact,
          decide_eq_true_eq] at hb
        exact ⟨hb.1, hb.2.1, y, hy, hb.2.2⟩
      · have hsplit := Except.ok.inj h
        rw [Prod.mk.injEq] at hsplit
        obtain ⟨hrem, hd⟩ := hsplit
        subst hrem hd
        exact ⟨rfl, rfl⟩

/-- C2 witness: the theorem applied to the 75-year-old record — all
three conditions hold, the remainder is empty, and the value is the one
full-expungement petition. -/
theorem expunge_over_70_spec_witness :
    ∃ rm dd, expunge_over_70 testToday rec75 = .ok (rm, dd) ∧
      rm = (⟨person75, []⟩ : CRecord) ∧
      dd.value = .petitions [{ kind := .expungement, client := person75,
                               cases := [case75], expungement_type := .full,
                               expungement_reasons := over70Reasons }] := by
  have hmain := (expunge_over_70_spec testToday rec75 ⟨person75, []⟩
    (.mk "Expungements for a person over 70." (some "Petition")
      (.petitions [{ kind := .expungement, client := person75,
                     cases := [case75], expungement_type := .full,
                     expungement_reasons := over70Reasons }])
      (.decs [Ser.is_over_age testToday person75 70,
        Ser.years_since_last_contact testToday rec75 10,
        Decision.mk ("Has it been at least " ++ toString (10 : Int) ++
            " years since " ++ person75.first_name ++
            "\x27s final release from custody?")
          Option.none (.bool true)
          (.text ("It has been " ++ (XInt.fin 12).toStr ++ "."))
          Option.none])
      Option.none) rfl).1
    ⟨by decide, by decide, ⟨.fin 12, rfl, by decide⟩⟩
  exact ⟨_, _, rfl, hmain.1, hmain.2⟩

/-- The claim's per-charge test for C1: a charge is expungeable as a
nonconviction iff it is neither a conviction nor unresolved, where
"unresolved" means an empty or missing disposition. -/
def expungeableNonconviction (ch : Charge) : Bool :=
  !ch.is_conviction &&
    !(ch.disposition == some "" || ch.disposition == (Option.none : Option String))

/-- Spec-side (C1): the slice of a case left behind — exactly the
charges that do not qualify — or nothing when every charge qualifies. -/
def nonconvictionRemainderSpec (c : Case) : Option Case :=
  let bad := c.charges.filter (fun ch => !expungeableNonconviction ch)
  if bad = [] then none
  else some { c.partialcopy with charges := bad }

/-- Spec-side (C1): the petition proposed for a case — covering exactly
the qualifying charges, full when all of the case's charges qualify and
partial otherwise — or nothing when no charge qualifies. -/
def nonconvictionPetitionSpec (person : Person) (c : Case) :
    Option Petition :=
  let good := c.charges.filter expungeableNonconviction
  if good = [] then none
  else some
    { kind := .expungement, client := person,
      cases := [{ c.partialcopy with charges := good }],
      expungement_type :=
        if good.length = c.charges.length then .full
        else .partialExpungement,
      expungement_reasons := "" }

/-- C1 bridge: the rule's test (`is_conviction_or_unresolved` falsy and
not `None`-valued) is the claim's three-valued test. -/
theorem nonconviction_charge_test (ch : Charge) :
    (!(Ser.is_conviction_or_unresolved ch).truthy &&
      !(Ser.is_conviction_or_unresolved ch).value.isNoneVal) =
      expungeableNonconviction ch := by
  unfold Ser.is_conviction_or_unresolved Ser.is_unresolved
    Ser.is_conviction expungeableNonconviction
  cases hd : ch.disposition with
  | none =>
    simp [anyTruthy, Decision.truthy, Decision.value, DVal.truthy,
      DVal.isNoneVal, Charge.is_conviction, hd]
  | some s =>
    by_cases hs : s = ""
    · subst hs
      simp [anyTruthy, Decision.truthy, Decision.value, DVal.truthy,
        DVal.isNoneVal, Charge.is_conviction, hd]
    · by_cases hps : pyStrip s = ""
      · have hconv : ch.is_conviction = false := by
          rw [Charge.is_conviction, hd]
          show strStartsWith (pyStrip s) "Guilty" = false
          rw [hps]
          rfl
        simp [anyTruthy, Decision.truthy, Decision.value, DVal.truthy,
          DVal.isNoneVal, hd, hs, hps, hconv]
      · simp [anyTruthy, Decision.truthy, Decision.value, DVal.truthy,
          DVal.isNoneVal, Charge.is_conviction, hd, hs, hps]

/-- C1 helper: the charge loop computes the two filters and the
per-charge decisions. -/
theorem nonconvictionChargeLoop_eq (charges : List Charge) :
    nonconvictionChargeLoop charges =
      (charges.filter expungeableNonconviction,
       charges.filter (fun ch => !expungeableNonconviction ch),
       charges.map Ser.is_conviction_or_unresolved) := by
  induction charges with
  | nil => rfl
  | cons ch rest ih =>
    rw [nonconvictionChargeLoop, ih, List.filter_cons, List.filter_cons,
      List.map_cons]
    rw [show (!(Ser.is_conviction_or_unresolved ch).truthy &&
        !(Ser.is_conviction_or_unresolved ch).value.isNoneVal) =
        expungeableNonconviction ch from nonconviction_charge_test ch]
    by_cases hq : expungeableNonconviction ch = true
    · simp [hq]
    · simp [Bool.not_eq_true] at hq
      simp [hq]

/-- C1 helper: the case loop computes the remainder and petition
characterizations. -/
theorem nonconvictionsCasesLoop_eq (p : Person) (cases : List Case) :
    nonconvictionsCasesLoop p cases =
      (cases.filterMap nonconvictionRemainderSpec,
       cases.filterMap (nonconvictionPetitionSpec p),
       cases.map (fun c =>
         .mk ("Does " ++ c.docket_number ++
             " have expungeable nonconvictions?")
           Option.none
           (.bool (decide (0 <
             (c.charges.filter expungeableNonconviction).length)))
           (.decs (c.charges.map Ser.is_conviction_or_unresolved))
           Option.none)) := by
  induction cases with
  | nil => rfl
  | cons c rest ih =>
    rw [nonconvictionsCasesLoop, nonconvictionChargeLoop_eq, ih,
      List.filterMap_cons, List.filterMap_cons, List.map_cons]
    rw [nonconvictionRemainderSpec, nonconvictionPetitionSpec]
    by_cases hg : (c.charges.filter expungeableNonconviction) = [] <;>
      by_cases hb :
        (c.charges.filter (fun ch => !expungeableNonconviction ch)) = [] <;>
      simp [hg, hb, List.length_pos]

/-- C1: `expunge_nonconvictions` keeps exactly the charges that are a
conviction or unresolved, petitions exactly the others (full when every
charge of the case qualifies, partial otherwise), and on the
two-charge "Nolle Prossed"/"Guilty" scenario returns a remainder whose
one case holds only the "Guilty" charge and a single
partial-expungement petition covering the "Nolle Prossed" charge. -/
theorem expunge_nonconvictions_spec (rec : CRecord) :
    (expunge_nonconvictions rec).1.cases =
      rec.cases.filterMap nonconvictionRemainderSpec ∧
    (expunge_nonconvictions rec).1.person = rec.person ∧
    (expunge_nonconvictions rec).2.value =
      .petitions (rec.cases.filterMap
        (nonconvictionPetitionSpec rec.person)) ∧
    (expunge_nonconvictions recS).1.cases =
      [{ caseS.partialcopy with charges := [chargeGuilty] }] ∧
    (expunge_nonconvictions recS).2.value =
      .petitions
        [{ kind := .expungement, client := personS,
           cases := [{ caseS.partialcopy with charges := [chargeNolle] }],
           expungement_type := .partialExpungement,
           expungement_reasons := "" }] := by
  refine ⟨?_, ?_, ?_, rfl, rfl⟩
  · rw [expunge_nonconvictions, nonconvictionsCasesLoop_eq]
  · rw [expunge_nonconvictions]
  · rw [expunge_nonconvictions, nonconvictionsCasesLoop_eq]
    rfl

/-- Dict lemma: looking up the inserted key. -/
theorem dictGet_insert_self {κ α : Type} [DecidableEq κ] (k : κ) (v : α) :
    ∀ m : List (κ × α), dictGet k (dictInsert k v m) = some v
  | [] => by simp [dictInsert, dictGet]
  | (k0, v0) :: rest => by
    by_cases h : k0 = k
    · simp [dictInsert, dictGet, h]
    · simp only [dictInsert, dictGet, if_neg h]
      exact dictGet_insert_self k v rest

/-- Dict lemma: looking up another key after an insert. -/
theorem dictGet_insert_ne {κ α : Type} [DecidableEq κ] (k k' : κ) (v : α)
    (hk : k' ≠ k) :
    ∀ m : List (κ × α), dictGet k' (dictInsert k v m) = dictGet k' m
  | [] => by simp [dictInsert, dictGet, Ne.symm hk]
  | (k0, v0) :: rest => by
    by_cases h : k0 = k
    · subst h
      simp [dictInsert, dictGet, Ne.symm hk]
    · simp only [dictInsert, dictGet, if_neg h]
      by_cases h0 : k0 = k'
      · simp [h0]
      · simp only [if_neg h0]
        exact dictGet_insert_ne k k' v hk rest

/-- A prefix stays a prefix of an extended list. -/
theorem charsPrefix_append (n h t : List Char)
    (hp : charsPrefix n h = true) : charsPrefix n (h ++ t) = true := by
  induction n generalizing h with
  | nil => rfl
  | cons a as ih =>
    cases h with
    | nil => exact absurd hp (by simp [charsPrefix])
    | cons b bs =>
      simp only [charsPrefix, Bool.and_eq_true] at hp
      simp only [List.cons_append, charsPrefix, Bool.and_eq_true]
      exact ⟨hp.1, ih bs hp.2⟩

/-- Every list is a prefix of itself. -/
theorem charsPrefix_self : ∀ n : List Char, charsPrefix n n = true
  | [] => rfl
  | a :: as => by
    simp only [charsPrefix, Bool.and_eq_true, decide_eq_true_eq]
    exact ⟨trivial, charsPrefix_self as⟩

/-- An occurrence survives extending the text to the right. -/
theorem charsInfix_append (n h t : List Char)
    (hi : charsInfix n h = true) : charsInfix n (h ++ t) = true := by
  induction h with
  | nil =>
    simp only [charsInfix] at hi
    cases n with
    | nil =>
      cases t with
      | nil => rfl
      | cons c cs => simp [charsInfix, charsPrefix]
    | cons a as => exact absurd hi (by simp [charsPrefix])
  | cons c cs ih =>
    simp only [charsInfix, Bool.or_eq_true] at hi
    simp only [List.cons_append, charsInfix, Bool.or_eq_true]
    cases hi with
    | inl hp => exact Or.inl (charsPrefix_append _ _ _ hp)
    | inr hr => exact Or.inr (ih hr)

/-- A needle appended at the end of a text occurs in it. -/
theorem charsInfix_suffix : ∀ (x n : List Char),
    charsInfix n (x ++ n) = true
  | [], n => by
    cases n with
    | nil => rfl
    | cons a as =>
      simp only [List.nil_append, charsInfix, Bool.or_eq_true]
      exact Or.inl (charsPrefix_self (a :: as))
  | c :: cs, n => by
    simp only [List.cons_append, charsInfix, Bool.or_eq_true]
    exact Or.inr (charsInfix_suffix cs n)

/-- The note appended by `set_next_step` occurs in the result. -/
theorem strContains_append_self (x n : String) :
    strContains (x ++ n) n = true := by
  rw [strContains]
  have hdata : (x ++ n).data = x.data ++ n.data := rfl
  rw [hdata]
  exact charsInfix_suffix x.data n.data

/-- An occurrence survives appending more text. -/
theorem strContains_mono (x t n : String)
    (h : strContains x n = true) : strContains (x ++ t) n = true := by
  rw [strContains]
  have hdata : (x ++ t).data = x.data ++ t.data := rfl
  rw [hdata]
  exact charsInfix_append n.data x.data t.data h

/-- C9 helper: the traffic case loop partitions the cases by the
docket-number marker. -/
theorem trafficLoop_eq (cases : List Case) :
    trafficLoop cases =
      (cases.filter (fun c => !strContains c.docket_number "TR"),
       cases.filter (fun c => strContains c.docket_number "TR"),
       cases.map is_traffic_case) := by
  induction cases with
  | nil => rfl
  | cons c rest ih =>
    rw [trafficLoop, ih, List.filter_cons, List.filter_cons, List.map_cons]
    by_cases ht : strContains c.docket_number "TR" = true
    · simp [is_traffic_case, Decision.truthy, Decision.value, DVal.truthy,
        ht]
    · simp only [Bool.not_eq_true] at ht
      simp [is_traffic_case, Decision.truthy, Decision.value, DVal.truthy,
        ht]

/-- C9 helper: a successful case-level `set_next_step` leaves the
counters alone, appends the note to the named case, and leaves every
other case untouched. -/
theorem setNextStep_case_eff (s : Summary) (dkt : String) (note : String)
    (s' : Summary) (h : setNextStep s dkt Option.none note = .ok s') :
    s'.clearable_cases = s.clearable_cases ∧
    s'.clearable_charges = s.clearable_charges ∧
    (∃ e, dictGet dkt s.cases = some e ∧
      dictGet dkt s'.cases =
        some { e with next_steps := e.next_steps ++ note }) ∧
    (∀ k, k ≠ dkt → dictGet k s'.cases = dictGet k s.cases) := by
  rw [setNextStep] at h
  cases hg : dictGet dkt s.cases with
  | none => rw [hg] at h; exact Except.noConfusion h
  | some cse =>
    rw [hg] at h
    have hs' := (Except.ok.inj h).symm
    subst hs'
    refine ⟨rfl, rfl, ⟨cse, rfl, ?_⟩, ?_⟩
    · exact dictGet_insert_self dkt _ s.cases
    · intro k hk
      exact dictGet_insert_ne dkt k _ hk s.cases

/-- C9 helper: the note survives the remaining iterations of the
traffic loop (they only append further case-level notes). -/
theorem trafficFold_preserves_note :
    ∀ (cs : List Case) (s s' : Summary) (k : String) (e : CaseSummary),
      trafficFold s cs = .ok s' →
      dictGet k s.cases = some e →
      strContains e.next_steps trafficNote = true →
      ∃ e', dictGet k s'.cases = some e' ∧
        strContains e'.next_steps trafficNote = true
  | [], s, s', k, e, h, hg, hn => by
    rw [trafficFold] at h
    have := Except.ok.inj h
    subst this
    exact ⟨e, hg, hn⟩
  | c :: cs, s, s', k, e, h, hg, hn => by
    rw [trafficFold] at h
    cases hstep : setNextStep s c.docket_number Option.none trafficNote with
    | error err => rw [hstep] at h; exact Except.noConfusion h
    | ok s1 =>
      rw [hstep] at h
      simp only [exceptBindOk] at h
      obtain ⟨_, _, ⟨e0, hge0, hge0i⟩, hother⟩ :=
        setNextStep_case_eff s c.docket_number trafficNote s1 hstep
      by_cases hk : k = c.docket_number
      · subst hk
        rw [hg] at hge0
        have he0 := Option.some.inj hge0
        subst he0
        exact trafficFold_preserves_note cs s1 s' c.docket_number _ h hge0i
          (strContains_mono _ _ _ hn)
      · exact trafficFold_preserves_note cs s1 s' k e h
          (by rw [hother k hk]; exact hg) hn

/-- C9 helper: the traffic loop keeps the counters and stamps the
consult-a-lawyer note on every removed case. -/
theorem trafficFold_eff :
    ∀ (cs : List Case) (s s' : Summary),
      trafficFold s cs = .ok s' →
      s'.clearable_cases = s.clearable_cases ∧
      s'.clearable_charges = s.clearable_charges ∧
      ∀ c ∈ cs, ∃ e, dictGet c.docket_number s'.cases = some e ∧
        strContains e.next_steps trafficNote = true
  | [], s, s', h => by
    rw [trafficFold] at h
    have := Except.ok.inj h
    subst this
    exact ⟨rfl, rfl, by intro c hc; exact absurd hc (List.not_mem_nil c)⟩
  | c :: cs, s, s', h => by
    rw [trafficFold] at h
    cases hstep : setNextStep s c.docket_number Option.none trafficNote with
    | error err => rw [hstep] at h; exact Except.noConfusion h
    | ok s1 =>
      rw [hstep] at h
      simp only [exceptBindOk] at h
      obtain ⟨hc1, hc2, ⟨e0, hge0, hge0i⟩, _⟩ :=
        setNextStep_case_eff s c.docket_number trafficNote s1 hstep
      obtain ⟨ha, hb, hmem⟩ := trafficFold_eff cs s1 s' h
      refine ⟨ha.trans hc1, hb.trans hc2, ?_⟩
      intro c' hc'
      cases hc' with
      | head =>
        exact trafficFold_preserves_note cs s1 s' c.docket_number _ h hge0i
          (strContains_append_self _ _)
      | tail _ htail => exact hmem c' htail

/-- C9: `filter_traffic_cases` keeps exactly the cases without the
"TR" docket marker and records exactly the removed ones in the
decision's value; the traffic interpreter of `summarize` then appends
the consult-a-lawyer note to each removed case and never changes the
clearable-case or clearable-charge counters. -/
theorem filter_traffic_spec :
    (∀ rec : CRecord,
      (filter_traffic_cases rec).1.cases =
        rec.cases.filter (fun c => !strContains c.docket_number "TR") ∧
      (filter_traffic_cases rec).1.person = rec.person ∧
      (filter_traffic_cases rec).2.value =
        .cases (rec.cases.filter
          (fun c => strContains c.docket_number "TR"))) ∧
    (∀ (s : Summary) (d : Decision) (cs : List Case) (s' : Summary),
      d.value = .cases cs →
      update_summary_for_traffic_cases s d = .ok s' →
      s'.clearable_cases = s.clearable_cases ∧
      s'.clearable_charges = s.clearable_charges ∧
      ∀ c ∈ cs, ∃ e, dictGet c.docket_number s'.cases = some e ∧
        strContains e.next_steps trafficNote = true) := by
  constructor
  · intro rec
    refine ⟨?_, rfl, ?_⟩
    · rw [filter_traffic_cases, trafficLoop_eq]
    · rw [filter_traffic_cases, trafficLoop_eq]
      rfl
  · intro s d cs s' hv h
    rw [update_summary_for_traffic_cases, hv] at h
    exact trafficFold_eff cs s s' h

/-- C9 witness: on the record holding a traffic case and a normal
case, the filter removes exactly the traffic case, and the interpreter
stamps its note on that case without touching the counters. -/
theorem filter_traffic_spec_witness :
    (filter_traffic_cases recTR).1.cases = [caseS] ∧
    (filter_traffic_cases recTR).2.value = .cases [caseTR] ∧
    (∃ s', update_summary_for_traffic_cases (buildSummary recTR)
        (filter_traffic_cases recTR).2 = .ok s' ∧
      s'.clearable_cases = (buildSummary recTR).clearable_cases ∧
      s'.clearable_charges = (buildSummary recTR).clearable_charges ∧
      ∃ e, dictGet caseTR.docket_number s'.cases = some e ∧
        strContains e.next_steps trafficNote = true) := by
  refine ⟨rfl, rfl, ?_⟩
  obtain ⟨s', hu⟩ : ∃ s',
      update_summary_for_traffic_cases (buildSummary recTR)
        (filter_traffic_cases recTR).2 = .ok s' := ⟨_, rfl⟩
  obtain ⟨h1, h2, h3⟩ := (filter_traffic_spec).2 (buildSummary recTR)
    (filter_traffic_cases recTR).2 [caseTR] s' rfl hu
  exact ⟨s', hu, h1, h2, h3 caseTR (List.mem_cons_self _ _)⟩

/-- `Except.map` on an `ok`. -/
theorem exceptMapOk {ε α β : Type} (f : α → β) (a : α) :
    (Except.ok a : Except ε α).map f = .ok (f a) := rfl

/-- `Except.map` on an `error`. -/
theorem exceptMapErr {ε α β : Type} (f : α → β) (e : ε) :
    (Except.error e : Except ε α).map f = .error e := rfl

/-- C4 helper: a name outside the known set has no interpreter. -/
theorem decisionUpdater_eq_none (n : String) (h : n ∉ knownNames) :
    decisionUpdater n = none := by
  rw [decisionUpdater]
  simp only [knownNames, List.mem_cons, List.not_mem_nil, or_false,
    not_or] at h
  obtain ⟨h1, h2, h3, h4, h5, h6, h7⟩ := h
  rw [if_neg h1, if_neg h2, if_neg h3, if_neg h4, if_neg h5, if_neg h6,
    if_neg h7]

/-- C4 helper: dispatching an unrecognized decision leaves the summary
alone and appends the error naming it. -/
theorem dispatch_unknown (s : Summary) (errs : List String) (d : Decision)
    (h : d.name ∉ knownNames) :
    dispatchDecision s errs d =
      .ok (s, errs ++ [unrecognizedMsg d.name]) := by
  rw [dispatchDecision, decisionUpdater_eq_none d.name h]

/-- C4 helper: the error list already accumulated only prefixes the
dispatch result. -/
theorem dispatch_errs_shift (s : Summary) (errs : List String)
    (d : Decision) :
    dispatchDecision s errs d =
      (dispatchDecision s [] d).map (fun p => (p.1, errs ++ p.2)) := by
  rw [dispatchDecision, dispatchDecision]
  cases decisionUpdater d.name with
  | some u =>
    cases hu : u s d with
    | error e => simp [hu, exceptMapErr]
    | ok s1 => simp [hu, exceptMapOk]
  | none => simp [exceptMapOk]

/-- C4 helper: the decision loop decomposes over list append. -/
theorem processDecisions_append (L1 L2 : List Decision) :
    ∀ (s : Summary) (errs : List String),
    processDecisions s errs (L1 ++ L2) =
      (processDecisions s errs L1) >>=
        (fun p => processDecisions p.1 p.2 L2) := by
  induction L1 with
  | nil => intro s errs; rfl
  | cons d ds ih =>
    intro s errs
    rw [List.cons_append, processDecisions, processDecisions]
    cases hd : dispatchDecision s errs d with
    | error e => rfl
    | ok p =>
      obtain ⟨s1, e1⟩ := p
      simp only [exceptBindOk]
      exact ih s1 e1

/-- C4 helper: errors accumulated so far only prefix the loop's
output. -/
theorem processDecisions_errs_shift :
    ∀ (L : List Decision) (s : Summary) (errs : List String),
    processDecisions s errs L =
      (processDecisions s [] L).map (fun p => (p.1, errs ++ p.2))
  | [], s, errs => by simp [processDecisions, exceptMapOk]
  | d :: ds, s, errs => by
    rw [processDecisions, processDecisions, dispatch_errs_shift s errs d]
    cases hd : dispatchDecision s [] d with
    | error e => simp [exceptBindErr, exceptMapErr]
    | ok p =>
      obtain ⟨s1, e1⟩ := p
      simp only [exceptMapOk, exceptBindOk]
      rw [processDecisions_errs_shift ds s1 e1,
        processDecisions_errs_shift ds s1 (errs ++ e1)]
      cases hr : processDecisions s1 [] ds with
      | error e => simp [exceptMapErr]
      | ok r => simp [exceptMapOk, List.append_assoc]

/-- C4: when the decision list holds a decision whose name matches none
of the seven known rule names, `summarize` completes, appends exactly
the error string naming that decision at that position, and produces
the same summary as without it — the unrecognized decision has no other
effect. -/
theorem summarize_unknown_decision (rec rem rem2 : CRecord)
    (pre post : List Decision) (d : Decision) (s : Summary)
    (es : List String)
    (hunk : d.name ∉ knownNames)
    (h : summarize ⟨rec, rem, pre ++ post⟩ = .ok (s, es)) :
    ∃ es1 es2, es = es1 ++ es2 ∧
      summarize ⟨rec, rem2, pre ++ d :: post⟩ =
        .ok (s, es1 ++ unrecognizedMsg d.name :: es2) := by
  unfold summarize at h ⊢
  dsimp only at h ⊢
  rw [processDecisions_append] at h
  cases hq : processDecisions (buildSummary rec) [] pre with
  | error e =>
    exfalso
    rw [hq] at h
    simp only [exceptBindErr] at h
    exact Except.noConfusion h
  | ok q =>
    obtain ⟨s1, e1⟩ := q
    rw [hq] at h
    simp only [exceptBindOk] at h
    rw [processDecisions_errs_shift post s1 e1] at h
    cases hr : processDecisions s1 [] post with
    | error e =>
      exfalso
      rw [hr] at h
      simp only [exceptMapErr, exceptBindErr] at h
      exact Except.noConfusion h
    | ok r =>
      obtain ⟨s2, e2⟩ := r
      rw [hr] at h
      simp only [exceptMapOk, exceptBindOk, exceptPure] at h
      have hsplit := Except.ok.inj h
      rw [Prod.mk.injEq] at hsplit
      obtain ⟨hs, hes⟩ := hsplit
      refine ⟨e1, e2, hes.symm, ?_⟩
      rw [processDecisions_append, hq]
      simp only [exceptBindOk]
      rw [processDecisions, dispatch_unknown s1 e1 d hunk]
      simp only [exceptBindOk]
      rw [processDecisions_errs_shift post s1 (e1 ++ [unrecognizedMsg d.name]),
        hr]
      simp only [exceptMapOk, exceptBindOk, exceptPure]
      rw [hs]
      rw [List.append_assoc]
      rfl

/-- C4 witness: summarizing the scenario record with just the bogus
decision completes, reports exactly its error, and yields the same
summary as with no decisions at all. -/
theorem summarize_unknown_decision_witness :
    bogusDecision.name ∉ knownNames ∧
    ∃ es1 es2, ([] : List String) = es1 ++ es2 ∧
      summarize ⟨recS, recS, [] ++ bogusDecision :: []⟩ =
        .ok (postPass (buildSummary recS),
          es1 ++ unrecognizedMsg bogusDecision.name :: es2) := by
  refine ⟨by decide, ?_⟩
  exact summarize_unknown_decision recS recS recS [] [] bogusDecision
    (postPass (buildSummary recS)) [] (by decide) rfl

/-- A field value that is neither `None` nor `""` — the values
`pick_more_complete` refuses to overwrite. -/
def presentStr (o : Option String) : Prop :=
  o ≠ Option.none ∧ o ≠ some ""

instance (o : Option String) : Decidable (presentStr o) := by
  unfold presentStr
  infer_instance

/-- C6 helper: `pick_more_complete` is order-insensitive on a disjoint
field. -/
theorem pickStr_disjoint_comm (a b : Option String)
    (hd : ¬(presentStr a ∧ presentStr b))
    (hp : presentStr a ∨ presentStr b) :
    Charge.pickStr a b = Charge.pickStr b a := by
  rcases a with _ | sa <;> rcases b with _ | sb
  · rfl
  · have hpb : sb ≠ "" := by
      rcases hp with h | h
      · exact absurd rfl h.1
      · intro hb
        exact h.2 (by rw [hb])
    simp [Charge.pickStr, hpb]
  · have hpa : sa ≠ "" := by
      rcases hp with h | h
      · intro ha
        exact h.2 (by rw [ha])
      · exact absurd rfl h.1
    simp [Charge.pickStr, hpa]
  · by_cases ha : sa = "" <;> by_cases hb : sb = ""
    · subst ha hb
      rfl
    · subst ha
      simp [Charge.pickStr, hb]
    · subst hb
      simp [Charge.pickStr, ha]
    · exact absurd ⟨⟨by simp, by simp [ha]⟩, ⟨by simp, by simp [hb]⟩⟩ hd

/-- C6 helper: picking between two present-typed strings never loses
the value. -/
theorem pickStr_some_some (a b : String) :
    ∃ v, Charge.pickStr (some a) (some b) = some v := by
  by_cases ha : a = "" <;> simp [Charge.pickStr, ha]

/-- C6 helper: `pick_more_complete` on `None`-or-value fields is
order-insensitive when not both are set. -/
theorem pickOpt_disjoint_comm {α : Type} (a b : Option α)
    (hd : ¬(a.isSome = true ∧ b.isSome = true)) :
    Charge.pickOpt a b = Charge.pickOpt b a := by
  rcases a with _ | va <;> rcases b with _ | vb
  · rfl
  · rfl
  · rfl
  · exact absurd ⟨rfl, rfl⟩ hd

/-- The disposition/disposition-date outcome of `combine_with` when
the incoming disposition is the string `o` (the source's branch
structure verbatim). -/
def combineDisposition (mine : Option String) (o : String)
    (myDate otherDate : Option PyDate) :
    Option String × Option PyDate :=
  match mine with
  | none => (some o, myDate)
  | some m =>
    if pyStrip m = "" then
      if pyStrip o ≠ "" then (some o, myDate)
      else if Charge.finalDisposition o then (some o, otherDate)
      else (some m, myDate)
    else
      if Charge.finalDisposition o then (some o, otherDate)
      else (some m, myDate)

/-- C6 helper: with a string incoming disposition, `combine_with`
returns, and each field is the corresponding single-field merge. -/
theorem combine_with_eq (c1 c2 : Charge) (s : String)
    (hd2 : c2.disposition = some s) :
    Charge.combine_with c1 c2 = .ok
      { offense := (Charge.combineStrField (some c1.offense)
          (some c2.offense)).getD c1.offense
        grade := Charge.combineStrField c1.grade c2.grade
        statute := (Charge.combineStrField (some c1.statute)
          (some c2.statute)).getD c1.statute
        sequence := Charge.combineStrField c1.sequence c2.sequence
        disposition := (combineDisposition c1.disposition s
          c1.disposition_date c2.disposition_date).1
        disposition_date := Charge.combineOptField
          (combineDisposition c1.disposition s c1.disposition_date
            c2.disposition_date).2 c2.disposition_date
        sentences := Charge.combineOptField c1.sentences c2.sentences
        otn := Charge.combineStrField c1.otn c2.otn } := by
  rw [Charge.combine_with, hd2]
  cases hd1 : c1.disposition with
  | none => rfl
  | some m =>
    by_cases hm : pyStrip m = ""
    · by_cases ho : pyStrip s = ""
      · by_cases hf : Charge.finalDisposition s = true
        · simp [combineDisposition, hm, ho, hf, exceptBindOk, exceptPure]
        · simp [combineDisposition, hm, ho, hf, exceptBindOk, exceptPure]
      · simp [combineDisposition, hm, ho, exceptBindOk, exceptPure]
    · by_cases hf : Charge.finalDisposition s = true
      · simp [combineDisposition, hm, hf, exceptBindOk, exceptPure]
      · simp [combineDisposition, hm, hf, exceptBindOk, exceptPure]

/-- C6 helper: a `None` field takes the other side's value. -/
theorem combineStrField_none (b : Option String) :
    Charge.combineStrField Option.none b = b := by
  cases b <;> rfl

/-- C6 helper: a blank field takes the other side's non-blank value. -/
theorem combineStrField_blank (g o : String) (hg : pyStrip g = "")
    (ho : pyStrip o ≠ "") :
    Charge.combineStrField (some g) (some o) = some o := by
  simp [Charge.combineStrField, hg, ho]

/-- C6 helper: a non-blank field keeps its value. -/
theorem combineStrField_keep (g : String) (b : Option String)
    (hg : pyStrip g ≠ "") :
    Charge.combineStrField (some g) b = some g := by
  simp [Charge.combineStrField, hg]

/-- C6 (amended): `Charge.combine` is order-insensitive on every field
present on exactly one side of two charges with disjoint present
fields; and `combine_with` — provided the incoming charge's disposition
is a string — fills `None`/blank fields from the incoming charge and
overwrites an already-present disposition only when the incoming text
matches a guilt/dismissal/nolle-prosequi/withdrawal term
(case-insensitively).  When the incoming disposition is `None`,
`combine_with` instead raises `TypeError` (the counterexample), which
is the only correction to the claim. -/
theorem charge_merge_spec :
    (∀ c1 c2 : Charge,
      (¬(presentStr c1.grade ∧ presentStr c2.grade) →
        (presentStr c1.grade ∨ presentStr c2.grade) →
        (Charge.combine c1 c2).grade = (Charge.combine c2 c1).grade) ∧
      (¬(presentStr c1.sequence ∧ presentStr c2.sequence) →
        (presentStr c1.sequence ∨ presentStr c2.sequence) →
        (Charge.combine c1 c2).sequence =
          (Charge.combine c2 c1).sequence) ∧
      (¬(presentStr c1.disposition ∧ presentStr c2.disposition) →
        (presentStr c1.disposition ∨ presentStr c2.disposition) →
        (Charge.combine c1 c2).disposition =
          (Charge.combine c2 c1).disposition) ∧
      (¬(presentStr c1.otn ∧ presentStr c2.otn) →
        (presentStr c1.otn ∨ presentStr c2.otn) →
        (Charge.combine c1 c2).otn = (Charge.combine c2 c1).otn) ∧
      (¬(c1.offense ≠ "" ∧ c2.offense ≠ "") →
        (c1.offense ≠ "" ∨ c2.offense ≠ "") →
        (Charge.combine c1 c2).offense = (Charge.combine c2 c1).offense) ∧
      (¬(c1.statute ≠ "" ∧ c2.statute ≠ "") →
        (c1.statute ≠ "" ∨ c2.statute ≠ "") →
        (Charge.combine c1 c2).statute = (Charge.combine c2 c1).statute) ∧
      (¬(c1.disposition_date.isSome = true ∧
          c2.disposition_date.isSome = true) →
        (Charge.combine c1 c2).disposition_date =
          (Charge.combine c2 c1).disposition_date) ∧
      (¬(c1.sentences.isSome = true ∧ c2.sentences.isSome = true) →
        (Charge.combine c1 c2).sentences =
          (Charge.combine c2 c1).sentences)) ∧
    (∀ (c1 c2 : Charge) (s : String), c2.disposition = some s →
      ∃ c', Charge.combine_with c1 c2 = .ok c' ∧
        (c1.grade = Option.none → c'.grade = c2.grade) ∧
        (∀ g o, c1.grade = some g → pyStrip g = "" → c2.grade = some o →
          pyStrip o ≠ "" → c'.grade = some o) ∧
        (∀ g, c1.grade = some g → pyStrip g ≠ "" → c'.grade = some g) ∧
        (c1.sequence = Option.none → c'.sequence = c2.sequence) ∧
        (c1.otn = Option.none → c'.otn = c2.otn) ∧
        (c1.sentences = Option.none → c'.sentences = c2.sentences) ∧
        (c1.disposition = Option.none → c'.disposition = some s) ∧
        (∀ m, c1.disposition = some m → pyStrip m ≠ "" →
          c'.disposition =
            (if Charge.finalDisposition s then some s else some m)) ∧
        (∀ m, c1.disposition = some m → pyStrip m = "" →
          pyStrip s ≠ "" → c'.disposition = some s)) := by
  constructor
  · intro c1 c2
    refine ⟨?_, ?_, ?_, ?_, ?_, ?_, ?_, ?_⟩
    · exact fun hd hp => pickStr_disjoint_comm _ _ hd hp
    · exact fun hd hp => pickStr_disjoint_comm _ _ hd hp
    · exact fun hd hp => pickStr_disjoint_comm _ _ hd hp
    · exact fun hd hp => pickStr_disjoint_comm _ _ hd hp
    · intro hd hp
      show (Charge.pickStr (some c1.offense) (some c2.offense)).getD
          c1.offense =
        (Charge.pickStr (some c2.offense) (some c1.offense)).getD
          c2.offense
      by_cases h1 : c1.offense = ""
      · have h2 : c2.offense ≠ "" := by
          rcases hp with h | h
          · exact absurd h1 h
          · exact h
        simp [Charge.pickStr, h1, h2]
      · have h2 : c2.offense = "" := by
          by_contra h2
          exact hd ⟨h1, h2⟩
        simp [Charge.pickStr, h1, h2]
    · intro hd hp
      show (Charge.pickStr (some c1.statute) (some c2.statute)).getD
          c1.statute =
        (Charge.pickStr (some c2.statute) (some c1.statute)).getD
          c2.statute
      by_cases h1 : c1.statute = ""
      · have h2 : c2.statute ≠ "" := by
          rcases hp with h | h
          · exact absurd h1 h
          · exact h
        simp [Charge.pickStr, h1, h2]
      · have h2 : c2.statute = "" := by
          by_contra h2
          exact hd ⟨h1, h2⟩
        simp [Charge.pickStr, h1, h2]
    · intro hd
      exact pickOpt_disjoint_comm _ _ hd
    · intro hd
      exact pickOpt_disjoint_comm _ _ hd
  · intro c1 c2 s hd2
    refine ⟨_, combine_with_eq c1 c2 s hd2, ?_, ?_, ?_, ?_, ?_, ?_, ?_,
      ?_, ?_⟩
    · intro hg
      show Charge.combineStrField c1.grade c2.grade = c2.grade
      rw [hg, combineStrField_none]
    · intro g o hg hpg ho hpo
      show Charge.combineStrField c1.grade c2.grade = some o
      rw [hg, ho, combineStrField_blank g o hpg hpo]
    · intro g hg hpg
      show Charge.combineStrField c1.grade c2.grade = some g
      rw [hg, combineStrField_keep g c2.grade hpg]
    · intro hs
      show Charge.combineStrField c1.sequence c2.sequence = c2.sequence
      rw [hs, combineStrField_none]
    · intro ho
      show Charge.combineStrField c1.otn c2.otn = c2.otn
      rw [ho, combineStrField_none]
    · intro hs
      show Charge.combineOptField c1.sentences c2.sentences = c2.sentences
      rw [hs]
      cases c2.sentences <;> rfl
    · intro hd1
      show (combineDisposition c1.disposition s c1.disposition_date
        c2.disposition_date).1 = some s
      rw [hd1]
      rfl
    · intro m hd1 hpm
      show (combineDisposition c1.disposition s c1.disposition_date
        c2.disposition_date).1 =
        if Charge.finalDisposition s then some s else some m
      rw [hd1, combineDisposition]
      rw [if_neg hpm]
      by_cases hf : Charge.finalDisposition s = true <;> simp [hf]
    · intro m hd1 hpm hps
      show (combineDisposition c1.disposition s c1.disposition_date
        c2.disposition_date).1 = some s
      rw [hd1, combineDisposition]
      rw [if_pos hpm, if_pos hps]

/-- A charge carrying only a grade, for the merge witness. -/
def chargeGradeOnly : Charge :=
  { chargeNolle with grade := some "M1", disposition := Option.none }

/-- C6 witness: disjoint charges merge order-insensitively on the
grade, and `combine_with` with a final-outcome incoming disposition
overwrites the present one. -/
theorem charge_merge_spec_witness :
    (Charge.combine chargeNoGrade chargeGradeOnly).grade =
      (Charge.combine chargeGradeOnly chargeNoGrade).grade ∧
    ∃ c', Charge.combine_with chargeGuilty chargeNolle = .ok c' ∧
      c'.disposition = some "Nolle Prossed" := by
  constructor
  · exact ((charge_merge_spec.1 chargeNoGrade chargeGradeOnly).1
      (by decide) (by decide))
  · obtain ⟨c', heq, _, _, _, _, _, _, _, hover, _⟩ :=
      charge_merge_spec.2 chargeGuilty chargeNolle "Nolle Prossed" rfl
    refine ⟨c', heq, ?_⟩
    rw [hover "Guilty" rfl (by decide)]
    decide

/-- C7 witness: the unrecognized token "Z7" compares as the lowest
grade, and `is_summary` completes on a charge graded "Z7". -/
theorem grade_handling_spec_witness :
    Charge.grade_GTE (some "") (some weirdGrade) = true ∧
    ∃ d, Ser.is_summary { chargeNoGrade with grade := some weirdGrade } =
        .ok d ∧ d.value = .bool false := by
  constructor
  · exact grade_handling_spec.2.1 weirdGrade (some "") (by decide)
  · exact ⟨_, grade_handling_spec.2.2.2
      { chargeNoGrade with grade := some weirdGrade } weirdGrade rfl,
      by decide⟩

end RecordLib
